import Mathlib

/-
Shallow embedding of the editor-items parser and serializer
(src/src/editoritems.py) together with the helper semantics of the
srctools primitives the module calls into.  Definitions follow the
Python source; each carries a note when it models an external helper
(srctools, pathlib) whose source is not part of this repository.
Errors are modelled as `Except String`; the line/file attribution that
the real tokenizer attaches to error messages is not tracked, only the
formatted message text.  LOGGER.warning calls are modelled by an
accumulated list of warning strings.
-/

namespace EditorItems

/-- Whitespace characters recognised by Python str.split() / str.strip(). -/
def pyIsSpace (c : Char) : Bool :=
  c == ' ' || c == '\t' || c == '\n' || c == '\x0d' || c == '\x0b' || c == '\x0c'

/-- ASCII-lowercase (str.casefold of the ASCII keys this format uses),
written over the character list so that kernel reduction works. -/
def pyLower (s : String) : String := String.mk (s.data.map Char.toLower)

/-- ASCII-uppercase (str.upper), over the character list. -/
def pyUpper (s : String) : String := String.mk (s.data.map Char.toUpper)

/-- str.startswith, over the character lists. -/
def pyStartsWith (s pre : String) : Bool := pre.data.isPrefixOf s.data

/-- s[n:], over the character list. -/
def pyDrop (s : String) (n : Nat) : String := String.mk (s.data.drop n)

/-- Helper for pySplit: walk the characters, accumulating the current word. -/
def pySplitAux : List Char → List Char → List String
  | [], [] => []
  | [], cur => [String.mk cur.reverse]
  | c :: cs, cur =>
    if pyIsSpace c then
      match cur with
      | [] => pySplitAux cs []
      | _ :: _ => String.mk cur.reverse :: pySplitAux cs []
    else pySplitAux cs (c :: cur)

/-- Python str.split() with no argument: split on whitespace runs, no empty parts. -/
def pySplit (s : String) : List String := pySplitAux s.data []

/-- Digits-only accumulator for pyInt. -/
def digitsVal : List Char → Nat → Option Nat
  | [], acc => some acc
  | c :: cs, acc => if c.isDigit then digitsVal cs (acc * 10 + (c.toNat - 48)) else none

/-- Python int(str): strips surrounding whitespace, allows one sign, then
base-10 digits.  (Digit-group underscores accepted by CPython are not
modelled; no input in this module contains them.) -/
def pyInt (s : String) : Option Int :=
  let cs := ((s.data.dropWhile pyIsSpace).reverse.dropWhile pyIsSpace).reverse
  match cs with
  | [] => none
  | '-' :: rest =>
    match rest with
    | [] => none
    | _ :: _ => (digitsVal rest 0).map (fun n => -(n : Int))
  | '+' :: rest =>
    match rest with
    | [] => none
    | _ :: _ => (digitsVal rest 0).map (fun n => (n : Int))
  | rest => (digitsVal rest 0).map (fun n => (n : Int))

/-- srctools.conv_int: int(val) with a fallback default of 0 on failure. -/
def convInt (s : String) : Int := (pyInt s).getD 0

/-- srctools.conv_bool: recognised truth/falsehood literals, else the default. -/
def convBool (s : String) (dflt : Bool) : Bool :=
  let f := (pyLower s)
  if f = "0" ∨ f = "no" ∨ f = "false" ∨ f = "n" ∨ f = "f" then false
  else if f = "1" ∨ f = "yes" ∨ f = "true" ∨ f = "y" ∨ f = "t" then true
  else dflt

/-- pathlib.PurePosixPath as used by this module: stored string form.
The empty construction PurePosixPath() (and PurePosixPath('')) is '.'.
Further posix normalisation is not needed by any value this module builds. -/
structure FSPath where
  s : String
deriving DecidableEq, Repr

/-- FSPath(value): normalise the empty string the way PurePosixPath does. -/
def FSPath.make (str : String) : FSPath := ⟨if str = "" then "." else str⟩

/-- PurePosixPath(): the '.' path used as the blank instance placeholder. -/
def FSPath.empty : FSPath := ⟨"."⟩

/-- The final path component (text after the last '/'). -/
def FSPath.fileName (p : FSPath) : String :=
  String.mk ((p.s.data.reverse.takeWhile (fun c => c != '/')).reverse)

/-- PurePosixPath.suffix: the final '.'-extension of the last component,
empty when there is none or when the component is a pure dot-file. -/
def FSPath.suffix (p : FSPath) : String :=
  let name := p.fileName.data
  let after := name.reverse.takeWhile (fun c => c != '.')
  if after.length = name.length then ""
  else if name.length - after.length - 1 = 0 then ""
  else String.mk ('.' :: after.reverse)

/-- PurePosixPath.with_suffix: swap the extension of the final component. -/
def FSPath.withSuffix (p : FSPath) (suf : String) : FSPath :=
  let name := p.fileName
  let stem := String.mk (name.data.take (name.length - p.suffix.length))
  let dir := String.mk (p.s.data.take (p.s.length - name.length))
  ⟨dir ++ stem ++ suf⟩

/-- srctools.Vec narrowed to integer components.  The original stores floats,
but every vector this module reads or writes in the verified claims is
integral, where float and integer semantics agree exactly. -/
structure Vec where
  x : Int
  y : Int
  z : Int
deriving DecidableEq, Repr

/-- srctools Vec.from_str: three numbers, else the (0, 0, 0) default. -/
def Vec.fromStr (s : String) : Vec :=
  match pySplit s with
  | [a, b, c] =>
    match pyInt a, pyInt b, pyInt c with
    | some x, some y, some z => ⟨x, y, z⟩
    | _, _, _ => ⟨0, 0, 0⟩
  | _ => ⟨0, 0, 0⟩

/-- srctools Vec __str__: "x y z" (integral floats print without a point). -/
def Vec.str (v : Vec) : String :=
  toString v.x ++ " " ++ toString v.y ++ " " ++ toString v.z

/-- Association-list model of a Python dict: d[k] = v keeps the position of an
existing key and appends new keys, matching insertion order. -/
def dictSet {α β : Type} [DecidableEq α] : List (α × β) → α → β → List (α × β)
  | [], k, v => [(k, v)]
  | (k2, v2) :: rest, k, v =>
    if k2 = k then (k, v) :: rest else (k2, v2) :: dictSet rest k v

/-- Python dict lookup d[k] as an Option. -/
def dictGet {α β : Type} [DecidableEq α] : List (α × β) → α → Option β
  | [], _ => none
  | (k2, v2) :: rest, k => if k2 = k then some v2 else dictGet rest k

/-- Python `k in d`. -/
def dictContains {α β : Type} [DecidableEq α] (l : List (α × β)) (k : α) : Bool :=
  (dictGet l k).isSome

/-- Python dict equality: same keys mapping to the same values, order ignored. -/
def dictEq {α β : Type} [DecidableEq α] [DecidableEq β] (l1 l2 : List (α × β)) : Bool :=
  l1.all (fun p => dictGet l2 p.1 = some p.2) && l2.all (fun p => dictGet l1 p.1 = some p.2)

/-- ItemClass: PeTI item classes (the editor C++ class of each item). -/
inductive ItemClass
  | UNCLASSED | FLOOR_BUTTON | PEDESTAL_BUTTON | PANEL_STAIR | PANEL_FLIP
  | PANEL_ANGLED | PISTON_PLATFORM | TRACK_PLATFORM | CUBE | GEL | FAITH_PLATE
  | CUBE_DROPPER | GEL_DROPPER | FAITH_TARGET | GLASS | TURRET | LIGHT_STRIP | GOO
  | LASER_EMITTER | FUNNEL | FIZZLER | LIGHT_BRIDGE
  | HANDLE_FIZZLER | HANDLE_GLASS | HANDLE_PISTON_PLATFORM | HANDLE_TRACK_PLATFORM
  | DOOR_ENTRY_SP | DOOR_ENTRY_COOP | DOOR_EXIT_SP | DOOR_EXIT_COOP
deriving DecidableEq, Repr

/-- The ID used in the configs (first tuple component of each enum value). -/
def ItemClass.id : ItemClass → String
  | .UNCLASSED => "ItemBase"
  | .FLOOR_BUTTON => "ItemButtonFloor"
  | .PEDESTAL_BUTTON => "ItemPedestalButton"
  | .PANEL_STAIR => "ItemStairs"
  | .PANEL_FLIP => "ItemPanelFlip"
  | .PANEL_ANGLED => "ItemAngledPanel"
  | .PISTON_PLATFORM => "ItemPistonPlatform"
  | .TRACK_PLATFORM => "ItemRailPlatform"
  | .CUBE => "ItemCube"
  | .GEL => "ItemPaintSplat"
  | .FAITH_PLATE => "ItemCatapult"
  | .CUBE_DROPPER => "ItemCubeDropper"
  | .GEL_DROPPER => "ItemPaintDropper"
  | .FAITH_TARGET => "ItemCatapultTarget"
  | .GLASS => "ItemBarrier"
  | .TURRET => "ItemTurret"
  | .LIGHT_STRIP => "ItemLightStrip"
  | .GOO => "ItemGoo"
  | .LASER_EMITTER => "ItemLaserEmitter"
  | .FUNNEL => "ItemTBeam"
  | .FIZZLER => "ItemBarrierHazard"
  | .LIGHT_BRIDGE => "ItemLightBridge"
  | .HANDLE_FIZZLER => "ItemBarrierHazardExtent"
  | .HANDLE_GLASS => "ItemBarrierExtent"
  | .HANDLE_PISTON_PLATFORM => "ItemPistonPlatformExtent"
  | .HANDLE_TRACK_PLATFORM => "ItemRailPlatformExtent"
  | .DOOR_ENTRY_SP => "ItemEntranceDoor"
  | .DOOR_ENTRY_COOP => "ItemCoopEntranceDoor"
  | .DOOR_EXIT_SP => "ItemExitDoor"
  | .DOOR_EXIT_COOP => "ItemCoopExitDoor"

/-- ITEM_CLASSES: casefolded class id -> ItemClass. -/
def ItemClass.ofId (s : String) : Option ItemClass :=
  if s = "itembase" then some .UNCLASSED
  else if s = "itembuttonfloor" then some .FLOOR_BUTTON
  else if s = "itempedestalbutton" then some .PEDESTAL_BUTTON
  else if s = "itemstairs" then some .PANEL_STAIR
  else if s = "itempanelflip" then some .PANEL_FLIP
  else if s = "itemangledpanel" then some .PANEL_ANGLED
  else if s = "itempistonplatform" then some .PISTON_PLATFORM
  else if s = "itemrailplatform" then some .TRACK_PLATFORM
  else if s = "itemcube" then some .CUBE
  else if s = "itempaintsplat" then some .GEL
  else if s = "itemcatapult" then some .FAITH_PLATE
  else if s = "itemcubedropper" then some .CUBE_DROPPER
  else if s = "itempaintdropper" then some .GEL_DROPPER
  else if s = "itemcatapulttarget" then some .FAITH_TARGET
  else if s = "itembarrier" then some .GLASS
  else if s = "itemturret" then some .TURRET
  else if s = "itemlightstrip" then some .LIGHT_STRIP
  else if s = "itemgoo" then some .GOO
  else if s = "itemlaseremitter" then some .LASER_EMITTER
  else if s = "itemtbeam" then some .FUNNEL
  else if s = "itembarrierhazard" then some .FIZZLER
  else if s = "itemlightbridge" then some .LIGHT_BRIDGE
  else if s = "itembarrierhazardextent" then some .HANDLE_FIZZLER
  else if s = "itembarrierextent" then some .HANDLE_GLASS
  else if s = "itempistonplatformextent" then some .HANDLE_PISTON_PLATFORM
  else if s = "itemrailplatformextent" then some .HANDLE_TRACK_PLATFORM
  else if s = "itementrancedoor" then some .DOOR_ENTRY_SP
  else if s = "itemcoopentrancedoor" then some .DOOR_ENTRY_COOP
  else if s = "itemexitdoor" then some .DOOR_EXIT_SP
  else if s = "itemcoopexitdoor" then some .DOOR_EXIT_COOP
  else none

/-- RenderableType: the two renderables. -/
inductive RenderableType
  | ERROR
  | CONN
deriving DecidableEq, Repr

/-- Renderable id lookup table (casefolded value -> type). -/
def RenderableType.ofId (s : String) : Option RenderableType :=
  if s = "errorstate" then some .ERROR
  else if s = "connectionheartsolid" then some .CONN
  else none

/-- Handle: types of directional handles. -/
inductive Handle
  | NONE | QUAD | CENT_OFF | DUAL_OFF | QUAD_OFF | FREE_ROT | FAITH
deriving DecidableEq, Repr

/-- The HANDLE_* value string of each handle. -/
def Handle.value : Handle → String
  | .NONE => "HANDLE_NONE"
  | .QUAD => "HANDLE_4_DIRECTIONS"
  | .CENT_OFF => "HANDLE_5_POSITIONS"
  | .DUAL_OFF => "HANDLE_6_POSITIONS"
  | .QUAD_OFF => "HANDLE_8_POSITIONS"
  | .FREE_ROT => "HANDLE_36_DIRECTIONS"
  | .FAITH => "HANDLE_CATAPULT"

/-- Handle(value): by-value Enum lookup. -/
def Handle.ofValue (s : String) : Option Handle :=
  if s = "HANDLE_NONE" then some .NONE
  else if s = "HANDLE_4_DIRECTIONS" then some .QUAD
  else if s = "HANDLE_5_POSITIONS" then some .CENT_OFF
  else if s = "HANDLE_6_POSITIONS" then some .DUAL_OFF
  else if s = "HANDLE_8_POSITIONS" then some .QUAD_OFF
  else if s = "HANDLE_36_DIRECTIONS" then some .FREE_ROT
  else if s = "HANDLE_CATAPULT" then some .FAITH
  else none

/-- Surface: used for InvalidSurface (WALLS aliases WALL, CEILING aliases CEIL). -/
inductive Surface
  | WALL
  | FLOOR
  | CEIL
deriving DecidableEq, Repr

/-- The value string of each surface. -/
def Surface.value : Surface → String
  | .WALL => "WALL"
  | .FLOOR => "FLOOR"
  | .CEIL => "CEILING"

/-- Surface[name]: by-name Enum lookup, alias names included. -/
def Surface.ofName (s : String) : Option Surface :=
  if s = "WALL" ∨ s = "WALLS" then some .WALL
  else if s = "FLOOR" then some .FLOOR
  else if s = "CEIL" ∨ s = "CEILING" then some .CEIL
  else none

/-- DesiredFacing: automatic reorientation targets (with aliased names). -/
inductive DesiredFacing
  | NONE | POSX | NEGX | HORIZ
deriving DecidableEq, Repr

/-- The DESIRES_* value string of each facing. -/
def DesiredFacing.value : DesiredFacing → String
  | .NONE => "DESIRES_ANYTHING"
  | .POSX => "DESIRES_UP"
  | .NEGX => "DESIRES_DOWN"
  | .HORIZ => "DESIRES_HORIZONTAL"

/-- DesiredFacing(value): by-value Enum lookup. -/
def DesiredFacing.ofValue (s : String) : Option DesiredFacing :=
  if s = "DESIRES_ANYTHING" then some .NONE
  else if s = "DESIRES_UP" then some .POSX
  else if s = "DESIRES_DOWN" then some .NEGX
  else if s = "DESIRES_HORIZONTAL" then some .HORIZ
  else none

/-- FaceType: surfaces produced by EmbedFace (several aliases per member). -/
inductive FaceType
  | NORMAL | HALF_VERT | LRG | MED | SML | CHECK
deriving DecidableEq, Repr

/-- The value string of each face type. -/
def FaceType.value : FaceType → String
  | .NORMAL => "Grid_Default"
  | .HALF_VERT => "2x1"
  | .LRG => "1x1"
  | .MED => "2x2"
  | .SML => "4x4"
  | .CHECK => "4x4_checkered"

/-- FACE_TYPES: casefolded value -> FaceType. -/
def FaceType.ofValue (s : String) : Option FaceType :=
  if s = "grid_default" then some .NORMAL
  else if s = "2x1" then some .HALF_VERT
  else if s = "1x1" then some .LRG
  else if s = "2x2" then some .MED
  else if s = "4x4" then some .SML
  else if s = "4x4_checkered" then some .CHECK
  else none

/-- Sound: events which trigger a sound. -/
inductive Sound
  | SELECT | DESELECT | DELETE | CREATE | PROPS_OPEN | PROPS_CLOSE
deriving DecidableEq, Repr

/-- The SOUND_* value string of each sound event. -/
def Sound.value : Sound → String
  | .SELECT => "SOUND_SELECTED"
  | .DESELECT => "SOUND_DESELECTED"
  | .DELETE => "SOUND_DELETED"
  | .CREATE => "SOUND_CREATED"
  | .PROPS_OPEN => "SOUND_EDITING_ACTIVATE"
  | .PROPS_CLOSE => "SOUND_EDITING_DEACTIVATE"

/-- Sound(value): by-value Enum lookup. -/
def Sound.ofValue (s : String) : Option Sound :=
  if s = "SOUND_SELECTED" then some .SELECT
  else if s = "SOUND_DESELECTED" then some .DESELECT
  else if s = "SOUND_DELETED" then some .DELETE
  else if s = "SOUND_CREATED" then some .CREATE
  else if s = "SOUND_EDITING_ACTIVATE" then some .PROPS_OPEN
  else if s = "SOUND_EDITING_DEACTIVATE" then some .PROPS_CLOSE
  else none

/-- Anim: events mapped to model sequence indexes.  Python Enum aliasing makes
CUBE_FLAT* the same members as IDLE / EDIT_START / EDIT_STOP. -/
inductive Anim
  | IDLE | EDIT_START | EDIT_STOP
  | CUBE_FALL | CUBE_FALL_EDIT_START | CUBE_FALL_EDIT_STOP
  | CUBE_FLAT2FALL | CUBE_FALL2FLAT | CUBE_FLAT2FALL_EDIT | CUBE_FALL2FLAT_EDIT
  | CDROP_ENABLE | CDROP_DISABLE
  | HEART_IDLE | HEART_CONN_MADE | HEART_CONN_BROKE
  | BAD_PLACE_IDLE | BAD_PLACE_SHOW | BAD_PLACE_HIDE
deriving DecidableEq, Repr

/-- The ANIM_* value string of each animation event. -/
def Anim.value : Anim → String
  | .IDLE => "ANIM_IDLE"
  | .EDIT_START => "ANIM_EDITING_ACTIVATE"
  | .EDIT_STOP => "ANIM_EDITING_DEACTIVATE"
  | .CUBE_FALL => "ANIM_FALLING_IDLE"
  | .CUBE_FALL_EDIT_START => "ANIM_FALLING_EDITING_ACTIVATE"
  | .CUBE_FALL_EDIT_STOP => "ANIM_FALLING_EDITING_DEACTIVATE"
  | .CUBE_FLAT2FALL => "ANIM_GROUND_TO_FALLING"
  | .CUBE_FALL2FLAT => "ANIM_FALLING_TO_GROUND"
  | .CUBE_FLAT2FALL_EDIT => "ANIM_GROUND_TO_FALLING_EDITING"
  | .CUBE_FALL2FLAT_EDIT => "ANIM_FALLING_TO_GROUND_EDITING"
  | .CDROP_ENABLE => "ANIM_REAPPEAR"
  | .CDROP_DISABLE => "ANIM_DISAPPEAR"
  | .HEART_IDLE => "ANIM_ICON_HEART_HAPPY_IDLE"
  | .HEART_CONN_MADE => "ANIM_ICON_HEART_SUCCESS"
  | .HEART_CONN_BROKE => "ANIM_ICON_HEART_BREAK"
  | .BAD_PLACE_IDLE => "ANIM_ICON_IDLE"
  | .BAD_PLACE_SHOW => "ANIM_ICON_SHOW"
  | .BAD_PLACE_HIDE => "ANIM_ICON_HIDE"

/-- Anim(value): by-value Enum lookup (exact case, as in Anim.parse_block). -/
def Anim.ofValue (s : String) : Option Anim :=
  if s = "ANIM_IDLE" then some .IDLE
  else if s = "ANIM_EDITING_ACTIVATE" then some .EDIT_START
  else if s = "ANIM_EDITING_DEACTIVATE" then some .EDIT_STOP
  else if s = "ANIM_FALLING_IDLE" then some .CUBE_FALL
  else if s = "ANIM_FALLING_EDITING_ACTIVATE" then some .CUBE_FALL_EDIT_START
  else if s = "ANIM_FALLING_EDITING_DEACTIVATE" then some .CUBE_FALL_EDIT_STOP
  else if s = "ANIM_GROUND_TO_FALLING" then some .CUBE_FLAT2FALL
  else if s = "ANIM_FALLING_TO_GROUND" then some .CUBE_FALL2FLAT
  else if s = "ANIM_GROUND_TO_FALLING_EDITING" then some .CUBE_FLAT2FALL_EDIT
  else if s = "ANIM_FALLING_TO_GROUND_EDITING" then some .CUBE_FALL2FLAT_EDIT
  else if s = "ANIM_REAPPEAR" then some .CDROP_ENABLE
  else if s = "ANIM_DISAPPEAR" then some .CDROP_DISABLE
  else if s = "ANIM_ICON_HEART_HAPPY_IDLE" then some .HEART_IDLE
  else if s = "ANIM_ICON_HEART_SUCCESS" then some .HEART_CONN_MADE
  else if s = "ANIM_ICON_HEART_BREAK" then some .HEART_CONN_BROKE
  else if s = "ANIM_ICON_IDLE" then some .BAD_PLACE_IDLE
  else if s = "ANIM_ICON_SHOW" then some .BAD_PLACE_SHOW
  else if s = "ANIM_ICON_HIDE" then some .BAD_PLACE_HIDE
  else none

/-- InstCount: an instance filename with its associated counts. -/
structure InstCount where
  inst : FSPath
  ent_count : Int
  brush_count : Int
  face_count : Int
deriving DecidableEq, Repr

/-- Coord: integer coordinates.  The process-wide interning cache of the
source is a pure identity optimisation (spec also says so) and is omitted:
cached and fresh coordinates are value-equal. -/
structure Coord where
  x : Int
  y : Int
  z : Int
deriving DecidableEq, Repr

/-- Coord.parse: three whitespace-separated integers. -/
def Coord.parse (value : String) : Except String Coord :=
  match pySplit value with
  | [a, b, c] =>
    match pyInt a with
    | none => .error ("Invalid coordinate value \"" ++ a ++ "\"!")
    | some x =>
      match pyInt b with
      | none => .error ("Invalid coordinate value \"" ++ b ++ "\"!")
      | some y =>
        match pyInt c with
        | none => .error ("Invalid coordinate value \"" ++ c ++ "\"!")
        | some z => .ok ⟨x, y, z⟩
  | _ => .error "Incorrect number of points for a coordinate!"

/-- EmbedFace: a face generated by the editor. -/
structure EmbedFace where
  center : Vec
  size : Vec
  type : FaceType
deriving DecidableEq, Repr

/-- Overlay: an overlay placed by the editor on the ground. -/
structure Overlay where
  material : String
  center : Vec
  size : Vec
  rotation : Int
deriving DecidableEq, Repr

/-- DEFAULT_ANIMS table. -/
def DEFAULT_ANIMS : List (Anim × Int) :=
  [(.IDLE, 0), (.EDIT_START, 1), (.EDIT_STOP, 2)]

/-- DEFAULT_SOUNDS table (in source dict insertion order). -/
def DEFAULT_SOUNDS : List (Sound × String) :=
  [(.SELECT, ""), (.DESELECT, ""),
   (.PROPS_OPEN, "P2Editor.ExpandOther"), (.PROPS_CLOSE, "P2Editor.CollapseOther"),
   (.CREATE, "P2Editor.PlaceOther"), (.DELETE, "P2Editor.RemoveOther")]

/-- ConnSide: sides of an item where antlines connect. -/
inductive ConnSide
  | LEFT | RIGHT | UP | DOWN
deriving DecidableEq, Repr

/-- The Coord value of each side. -/
def ConnSide.value : ConnSide → Coord
  | .LEFT => ⟨1, 0, 0⟩
  | .RIGHT => ⟨-1, 0, 0⟩
  | .UP => ⟨0, 1, 0⟩
  | .DOWN => ⟨0, -1, 0⟩

/-- ConnSide[name]: by-name Enum lookup. -/
def ConnSide.ofName (s : String) : Option ConnSide :=
  if s = "LEFT" then some .LEFT
  else if s = "RIGHT" then some .RIGHT
  else if s = "UP" then some .UP
  else if s = "DOWN" then some .DOWN
  else none

/-- ConnSide.parse: name lookup first, then a flat unit vector. -/
def ConnSide.parse (value : String) : Except String ConnSide :=
  match ConnSide.ofName (pyUpper value) with
  | some side => .ok side
  | none =>
    match pySplit value with
    | [a, b, c] =>
      match pyInt a, pyInt b, pyInt c with
      | some x, some y, some z =>
        if z ≠ 0 then .error "Connection side must be flat!"
        else if x = 0 then
          if y = 1 then .ok .UP
          else if y = -1 then .ok .DOWN
          else .error ("Unknown connection side (" ++ toString x ++ ", " ++ toString y ++ ", 0)")
        else if y = 0 then
          if x = 1 then .ok .LEFT
          else if x = -1 then .ok .RIGHT
          else .error ("Unknown connection side (" ++ toString x ++ ", " ++ toString y ++ ", 0)")
        else .error ("Unknown connection side (" ++ toString x ++ ", " ++ toString y ++ ", 0)")
      | _, _, _ => .error "Invalid connection side!"
    | _ => .error "Incorrect number of points for a direction!"

/-- AntlinePoint: a location antlines can connect to. -/
structure AntlinePoint where
  pos : Coord
  sign_off : Coord
  priority : Int
  group : Option Int
deriving DecidableEq, Repr

/-- Modelled from the spec: the external Property Registry (editoritems_props,
not part of this repository) exposes lookup by casefolded type name.  No claim
depends on its contents, so the registry is embedded with its observable shape
(an id per property type) and an empty table. -/
structure PropType where
  id : String
deriving DecidableEq, Repr

/-- Modelled from the spec: a constructed property instance
(default string, order index, user-editable flag). -/
structure ItemProp where
  id : String
  dflt : String
  index : Int
  user_default : Bool
deriving DecidableEq, Repr

/-- Modelled from the spec: PROP_TYPES registry contents are external; empty here. -/
def PROP_TYPES : List (String × PropType) := []

/-- Modelled from the spec: PropType.construct(default, index, user_editable)
may raise ValueError for an invalid default; with the empty registry it is
never invoked, so it is embedded as always succeeding. -/
def propConstruct (pt : PropType) (dflt : String) (index : Int) (user_default : Bool) :
    Option ItemProp :=
  some ⟨pt.id, dflt, index, user_default⟩

end EditorItems

namespace EditorItems

/-- bounding_boxes growth extent per probe (the 50-unit cap of the source). -/
def EXTENT : Nat := 50

/-- One positive-direction probe loop: for t in range(cur+1, cur+1+fuel),
extend while `mem` holds, stopping at the first failure. -/
def probePos (mem : Int → Bool) : Nat → Int → Int
  | 0, cur => cur
  | fuel + 1, cur => if mem (cur + 1) then probePos mem fuel (cur + 1) else cur

/-- One negative-direction probe loop (range with step -1). -/
def probeNeg (mem : Int → Bool) : Nat → Int → Int
  | 0, cur => cur
  | fuel + 1, cur => if mem (cur - 1) then probeNeg mem fuel (cur - 1) else cur

/-- One iteration of bounding_boxes expands the box axis by axis (X rows,
then Y rows, then Z slabs), testing membership in the still-to-do set (which
no longer holds the seed itself).  range(x1+1, x1+EXTENT) visits
EXTENT-1 = 49 candidates per direction.  Each loop's final value is named:
growX2 is the x2 after the X+ probe, growX1 the x1 after X-, and so on. -/
def growX2 (todo : Finset Coord) (seed : Coord) : Int :=
  probePos (fun x => decide ((⟨x, seed.y, seed.z⟩ : Coord) ∈ todo)) (EXTENT - 1) seed.x

/-- The x1 value after the X- probe. -/
def growX1 (todo : Finset Coord) (seed : Coord) : Int :=
  probeNeg (fun x => decide ((⟨x, seed.y, seed.z⟩ : Coord) ∈ todo)) (EXTENT - 1) seed.x

/-- The y2 value after the Y+ probe (checking whole X rows). -/
def growY2 (todo : Finset Coord) (seed : Coord) : Int :=
  probePos
    (fun y => decide (∀ x ∈ Finset.Icc (growX1 todo seed) (growX2 todo seed),
      (⟨x, y, seed.z⟩ : Coord) ∈ todo)) (EXTENT - 1) seed.y

/-- The y1 value after the Y- probe. -/
def growY1 (todo : Finset Coord) (seed : Coord) : Int :=
  probeNeg
    (fun y => decide (∀ x ∈ Finset.Icc (growX1 todo seed) (growX2 todo seed),
      (⟨x, y, seed.z⟩ : Coord) ∈ todo)) (EXTENT - 1) seed.y

/-- The z2 value after the Z+ probe (checking whole XY slabs). -/
def growZ2 (todo : Finset Coord) (seed : Coord) : Int :=
  probePos
    (fun z => decide (∀ x ∈ Finset.Icc (growX1 todo seed) (growX2 todo seed),
      ∀ y ∈ Finset.Icc (growY1 todo seed) (growY2 todo seed),
      (⟨x, y, z⟩ : Coord) ∈ todo)) (EXTENT - 1) seed.z

/-- The z1 value after the Z- probe. -/
def growZ1 (todo : Finset Coord) (seed : Coord) : Int :=
  probeNeg
    (fun z => decide (∀ x ∈ Finset.Icc (growX1 todo seed) (growX2 todo seed),
      ∀ y ∈ Finset.Icc (growY1 todo seed) (growY2 todo seed),
      (⟨x, y, z⟩ : Coord) ∈ todo)) (EXTENT - 1) seed.z

/-- The grown (minCorner, maxCorner) box of one iteration. -/
def growBox (todo : Finset Coord) (seed : Coord) : Coord × Coord :=
  (⟨growX1 todo seed, growY1 todo seed, growZ1 todo seed⟩,
   ⟨growX2 todo seed, growY2 todo seed, growZ2 todo seed⟩)

/-- The lattice points enclosed by a (minCorner, maxCorner) pair. -/
def inBox (b : Coord × Coord) (p : Coord) : Prop :=
  b.1.x ≤ p.x ∧ p.x ≤ b.2.x ∧ b.1.y ≤ p.y ∧ p.y ≤ b.2.y ∧ b.1.z ≤ p.z ∧ p.z ≤ b.2.z

instance (b : Coord × Coord) (p : Coord) : Decidable (inBox b p) := by
  unfold inBox; infer_instance

/-- A choice function standing for Python set.pop(): some element of any
nonempty set.  bounding_boxes is verified for every such function. -/
def Chooser : Type :=
  (s : Finset Coord) → s.Nonempty → {c : Coord // c ∈ s}

/-- The bounding_boxes while-loop with explicit fuel.  Each iteration pops a
seed, grows a box, removes the covered points and emits the box.  Any fuel
above the cardinality of the set is enough, since every iteration strictly
shrinks the to-do set. -/
def bbLoop (choose : Chooser) : Nat → Finset Coord → List (Coord × Coord)
  | 0, _ => []
  | fuel + 1, todo =>
    if h : todo.Nonempty then
      let seed := (choose todo h).1
      let rest := todo.erase seed
      let b := growBox rest seed
      b :: bbLoop choose fuel (rest.filter (fun p => ¬ inBox b p))
    else []

/-- bounding_boxes: decompose a set of voxels into boxes enclosing them. -/
def boundingBoxes (choose : Chooser) (voxels : Finset Coord) : List (Coord × Coord) :=
  bbLoop choose (voxels.card + 1) voxels

/-- Lexicographic key, used only to build a concrete Chooser. -/
def Coord.key (c : Coord) : Int ×ₗ (Int ×ₗ Int) := toLex (c.x, toLex (c.y, c.z))

instance : LinearOrder Coord :=
  LinearOrder.lift' Coord.key (by
    intro a b h
    cases a; cases b
    simp only [Coord.key, toLex_inj, Prod.mk.injEq] at h
    simp_all)

/-- A concrete Chooser: pick the lexicographically least remaining point. -/
def chooseMin : Chooser := fun s h => ⟨s.min' h, s.min'_mem h⟩

/-- SubType: a single sub-item component of an overall item. -/
structure SubType where
  name : String
  models : List FSPath
  sounds : List (Sound × String)
  anims : List (Anim × Int)
  pal_name : String
  pal_pos : Option (Int × Int)
  pal_icon : Option FSPath
deriving DecidableEq, Repr

/-- The initial SubType handed to SubType.parse. -/
def SubType.init : SubType := ⟨"", [], DEFAULT_SOUNDS, [], "", none, none⟩

/-- Renderable: the simpler definition for the heart and error icons. -/
structure Renderable where
  type : RenderableType
  model : String
  animations : List (Anim × Int)
deriving DecidableEq, Repr

/-- The antline_points dict: one ordered list per fixed side. -/
structure AntSides where
  left : List AntlinePoint
  right : List AntlinePoint
  up : List AntlinePoint
  down : List AntlinePoint
deriving DecidableEq, Repr

/-- The {side: [] for side in ConnSide} initial dict. -/
def AntSides.empty : AntSides := ⟨[], [], [], []⟩

/-- Lookup one side's list. -/
def AntSides.get (a : AntSides) : ConnSide → List AntlinePoint
  | .LEFT => a.left
  | .RIGHT => a.right
  | .UP => a.up
  | .DOWN => a.down

/-- Append a point to one side's list. -/
def AntSides.add (a : AntSides) (side : ConnSide) (p : AntlinePoint) : AntSides :=
  match side with
  | .LEFT => { a with left := a.left ++ [p] }
  | .RIGHT => { a with right := a.right ++ [p] }
  | .UP => { a with up := a.up ++ [p] }
  | .DOWN => { a with down := a.down ++ [p] }

/-- Item: a specific item.  Note the two pseudo-handle fields: the constructor
and exporter use the misspelt `pseduo_handle`, while the _BOOL_ATTRS table
setattr's a distinct `pseudo_handle` attribute (modelled as its own field). -/
structure Item where
  id : String
  cls : ItemClass
  subtype_prop : Option PropType
  handle : Handle
  facing : DesiredFacing
  invalid_surf : Finset Surface
  animations : List (Anim × Int)
  anchor_barriers : Bool
  anchor_goo : Bool
  occupies_voxel : Bool
  copiable : Bool
  deletable : Bool
  pseduo_handle : Bool
  pseudo_handle : Bool
  subtypes : List SubType
  properties : List (String × ItemProp)
  offset : Vec
  targetname : String
  instances : List InstCount
  cust_instances : List (String × FSPath)
  antline_points : AntSides
  embed_voxels : Finset Coord
  embed_faces : List EmbedFace
  overlays : List Overlay
deriving DecidableEq

/-- Item.__init__ with the defaults parse_one passes (id '', class UNCLASSED). -/
def Item.init (item_id : String) (cls : ItemClass) : Item :=
  { id := item_id
    cls := cls
    subtype_prop := none
    handle := .NONE
    facing := .NONE
    invalid_surf := ∅
    animations := []
    anchor_barriers := false
    anchor_goo := false
    occupies_voxel := true
    copiable := true
    deletable := true
    pseduo_handle := false
    pseudo_handle := false
    subtypes := []
    properties := []
    offset := ⟨64, 64, 64⟩
    targetname := ""
    instances := []
    cust_instances := []
    antline_points := .empty
    embed_voxels := ∅
    embed_faces := []
    overlays := [] }

/-- The result of Item.parse: items and renderables, plus the warnings the
source sends to LOGGER.warning. -/
structure Doc where
  items : List (String × Item)
  icons : List (RenderableType × Renderable)
  warnings : List String
deriving DecidableEq

end EditorItems

namespace EditorItems

/-- Token kinds of the tokenizer (EOF is the end of the list). -/
inductive Tok
  | str (s : String)
  | brOpen
  | brClose
  | nl
deriving DecidableEq, Repr

/-- Characters ending a bare word. -/
def isBareEnd (c : Char) : Bool :=
  c == ' ' || c == '\t' || c == '\x0d' || c == '\n' || c == '{' || c == '}' || c == '"'

/-- Modelled from the spec: the Tokenizer component (srctools.tokenizer is not
part of this repository).  It lexes the character stream into STRING (quoted
or bare), BRACE_OPEN, BRACE_CLOSE and NEWLINE tokens, skips spaces and
slash-slash comments, and fails on an unterminated quote.  Fuel above the character
count is always enough, as every step consumes at least one character. -/
def tokLoop : Nat → List Char → Except String (List Tok)
  | 0, _ => .error "Tokenizer fuel exhausted"
  | _ + 1, [] => .ok []
  | fuel + 1, c :: cs =>
    if c = '\n' then (tokLoop fuel cs).map (fun ts => Tok.nl :: ts)
    else if c = ' ' ∨ c = '\t' ∨ c = '\x0d' then tokLoop fuel cs
    else if c = '{' then (tokLoop fuel cs).map (fun ts => Tok.brOpen :: ts)
    else if c = '}' then (tokLoop fuel cs).map (fun ts => Tok.brClose :: ts)
    else if c = '"' then
      match cs.dropWhile (fun d => d != '"') with
      | [] => .error "Unterminated string!"
      | _ :: rest2 =>
        (tokLoop fuel rest2).map
          (fun ts => Tok.str (String.mk (cs.takeWhile (fun d => d != '"'))) :: ts)
    else if c = '/' ∧ cs.head? = some '/' then
      tokLoop fuel (cs.dropWhile (fun d => d != '\n'))
    else
      (tokLoop fuel ((c :: cs).dropWhile (fun d => !(isBareEnd d)))).map
        (fun ts => Tok.str (String.mk ((c :: cs).takeWhile (fun d => !(isBareEnd d)))) :: ts)

/-- Tokenize a whole string. -/
def tokenize (s : String) : Except String (List Tok) :=
  tokLoop (s.length + 1) s.data

/-- Skip NEWLINE tokens. -/
def skipNls : List Tok → List Tok
  | .nl :: ts => skipNls ts
  | ts => ts

/-- tok.expect(Token.STRING): next non-newline token must be a string. -/
def expectString (ts : List Tok) : Except String (String × List Tok) :=
  match skipNls ts with
  | .str s :: rest => .ok (s, rest)
  | _ => .error "Expected a string token!"

/-- tok.expect(Token.BRACE_OPEN). -/
def expectOpen (ts : List Tok) : Except String (List Tok) :=
  match skipNls ts with
  | .brOpen :: rest => .ok rest
  | _ => .error "Expected an opening brace!"

/-- The brace consumed by tok.block(name) before iterating keys. -/
def blockStart (name : String) (ts : List Tok) : Except String (List Tok) :=
  match skipNls ts with
  | .brOpen :: rest => .ok rest
  | _ => .error ("Expected brace for " ++ name ++ " block!")

/-- One step of the tok.block key iterator. -/
inductive BlockStep
  | key (s : String) (rest : List Tok)
  | done (rest : List Tok)

/-- tok.block(name): yield the next key, stop at the closing brace,
fail on EOF or a stray opening brace. -/
def blockNext (name : String) (ts : List Tok) : Except String BlockStep :=
  match skipNls ts with
  | [] => .error ("Unclosed " ++ name ++ " block!")
  | .str s :: rest => .ok (.key s rest)
  | .brClose :: rest => .ok (.done rest)
  | _ => .error ("Unexpected brace in " ++ name ++ " block!")

/-- next(tok.skipping_newlines()): the next non-newline token. -/
def nextSkipNl (ts : List Tok) : Except String (Tok × List Tok) :=
  match skipNls ts with
  | [] => .error "Unexpected end of file!"
  | t :: rest => .ok (t, rest)

/-- Anim.parse_block body: the Animations block key loop. -/
def animLoop : Nat → List (Anim × Int) → List Tok →
    Except String (List (Anim × Int) × List Tok)
  | 0, _, _ => .error "Parser fuel exhausted"
  | fuel + 1, anims, ts =>
    match blockNext "Animations" ts with
    | .error e => .error e
    | .ok (.done rest) => .ok (anims, rest)
    | .ok (.key anim_name rest) =>
      match Anim.ofValue anim_name with
      | none => .error ("Unknown animation " ++ anim_name)
      | some anim =>
        match expectString rest with
        | .error e => .error e
        | .ok (v, rest2) => animLoop fuel (dictSet anims anim (convInt v)) rest2

/-- Anim.parse_block: tok.block('Animations') plus the key loop. -/
def parseAnimBlock (anims : List (Anim × Int)) (ts : List Tok) :
    Except String (List (Anim × Int) × List Tok) :=
  match blockStart "Animations" ts with
  | .error e => .error e
  | .ok rest => animLoop (rest.length + 1) anims rest

/-- The Sounds block key loop of SubType.parse. -/
def soundsLoop : Nat → SubType → List Tok → Except String (SubType × List Tok)
  | 0, _, _ => .error "Parser fuel exhausted"
  | fuel + 1, st, ts =>
    match blockNext "Sounds" ts with
    | .error e => .error e
    | .ok (.done rest) => .ok (st, rest)
    | .ok (.key sound_kind rest) =>
      match Sound.ofValue (pyUpper sound_kind) with
      | none => .error ("Unknown sound type \"" ++ sound_kind ++ "\"!")
      | some sound =>
        match expectString rest with
        | .error e => .error e
        | .ok (v, rest2) =>
          soundsLoop fuel { st with sounds := dictSet st.sounds sound v } rest2

/-- The Palette block key loop of SubType.parse. -/
def paletteLoop : Nat → SubType → List Tok → Except String (SubType × List Tok)
  | 0, _, _ => .error "Parser fuel exhausted"
  | fuel + 1, st, ts =>
    match blockNext "Palette" ts with
    | .error e => .error e
    | .ok (.done rest) => .ok (st, rest)
    | .ok (.key key rest) =>
      let subkey := (pyLower key)
      if subkey = "tooltip" then
        match expectString rest with
        | .error e => .error e
        | .ok (v, rest2) => paletteLoop fuel { st with pal_name := v } rest2
      else if subkey = "image" then
        match expectString rest with
        | .error e => .error e
        | .ok (v, rest2) => paletteLoop fuel { st with pal_icon := some (FSPath.make v) } rest2
      else if subkey = "position" then
        match expectString rest with
        | .error e => .error e
        | .ok (v, rest2) =>
          match pySplit v with
          | a :: b :: tail =>
            if tail.length = 0 ∨ tail.length = 1 then
              match pyInt a, pyInt b with
              | some x, some y => paletteLoop fuel { st with pal_pos := some (x, y) } rest2
              | _, _ => .error "Invalid position value!"
            else .error "Incorrect number of points in position"
          | _ => .error "Incorrect number of points in position"
      else .error ("Unknown palette option \"" ++ subkey ++ "\"!")

/-- The Model sub-block key loop (brace already consumed). -/
def modelLoop : Nat → Option FSPath → List Tok →
    Except String (Option FSPath × List Tok)
  | 0, _, _ => .error "Parser fuel exhausted"
  | fuel + 1, model_name, ts =>
    match blockNext "Model" ts with
    | .error e => .error e
    | .ok (.done rest) => .ok (model_name, rest)
    | .ok (.key key rest) =>
      let subkey := (pyLower key)
      if subkey = "modelname" then
        match expectString rest with
        | .error e => .error e
        | .ok (v, rest2) => modelLoop fuel (some (FSPath.make v)) rest2
      else if subkey = "texturename" then
        match expectString rest with
        | .error e => .error e
        | .ok (_, rest2) => modelLoop fuel model_name rest2
      else .error ("Unknown model option \"" ++ subkey ++ "\"!")

/-- Swap to '.mdl' unless the stored suffix already casefolds to it. -/
def normalizeModel (m : FSPath) : FSPath :=
  if (pyLower m.suffix) ≠ ".mdl" then m.withSuffix ".mdl" else m

/-- The Subtype block key loop. -/
def subtypeLoop : Nat → SubType → List Tok → Except String (SubType × List Tok)
  | 0, _, _ => .error "Parser fuel exhausted"
  | fuel + 1, st, ts =>
    match blockNext "Subtype" ts with
    | .error e => .error e
    | .ok (.done rest) => .ok (st, rest)
    | .ok (.key key rest) =>
      let folded_key := (pyLower key)
      if folded_key = "name" then
        match expectString rest with
        | .error e => .error e
        | .ok (v, rest2) => subtypeLoop fuel { st with name := v } rest2
      else if folded_key = "model" then
        match nextSkipNl rest with
        | .error e => .error e
        | .ok (.str v, rest2) =>
          subtypeLoop fuel
            { st with models := st.models ++ [normalizeModel (FSPath.make v)] } rest2
        | .ok (.brOpen, rest2) =>
          match modelLoop (rest2.length + 1) none rest2 with
          | .error e => .error e
          | .ok (model_name, rest3) =>
            match model_name with
            | none => .error "No model name specified!"
            | some m =>
              subtypeLoop fuel { st with models := st.models ++ [normalizeModel m] } rest3
        | .ok (_, _) => .error "Unexpected token in model!"
      else if folded_key = "palette" then
        match blockStart "Palette" rest with
        | .error e => .error e
        | .ok rest2 =>
          match paletteLoop (rest2.length + 1) st rest2 with
          | .error e => .error e
          | .ok (st2, rest3) => subtypeLoop fuel st2 rest3
      else if folded_key = "sounds" then
        match blockStart "Sounds" rest with
        | .error e => .error e
        | .ok rest2 =>
          match soundsLoop (rest2.length + 1) st rest2 with
          | .error e => .error e
          | .ok (st2, rest3) => subtypeLoop fuel st2 rest3
      else if folded_key = "animations" then
        match parseAnimBlock st.anims rest with
        | .error e => .error e
        | .ok (a, rest2) => subtypeLoop fuel { st with anims := a } rest2
      else .error ("Unknown subtype option \"" ++ key ++ "\"!")

/-- SubType.parse. -/
def SubType.parse (ts : List Tok) : Except String (SubType × List Tok) :=
  match blockStart "Subtype" ts with
  | .error e => .error e
  | .ok rest => subtypeLoop (rest.length + 1) SubType.init rest

/-- Item._BOOL_ATTRS: boolean editor option -> Item attribute name. -/
def BOOL_ATTRS : List (String × String) :=
  [("cananchoronbarriers", "anchor_barriers"),
   ("cananchorongoo", "anchor_barriers"),
   ("occupiesvoxel", "occupies_voxel"),
   ("copyable", "copiable"),
   ("deletable", "deletable"),
   ("pseudohandle", "pseudo_handle")]

/-- Python setattr for the attribute names reachable through _BOOL_ATTRS.
Note that "pseudo_handle" creates/sets the fresh pseudo_handle attribute, not
the misspelt pseduo_handle field the constructor and exporter use. -/
def setBoolAttr (it : Item) (attr : String) (b : Bool) : Item :=
  if attr = "anchor_barriers" then { it with anchor_barriers := b }
  else if attr = "anchor_goo" then { it with anchor_goo := b }
  else if attr = "occupies_voxel" then { it with occupies_voxel := b }
  else if attr = "copiable" then { it with copiable := b }
  else if attr = "deletable" then { it with deletable := b }
  else if attr = "pseudo_handle" then { it with pseudo_handle := b }
  else it

/-- The InvalidSurface word loop: validate each word independently, adding it. -/
def addSurfaces : Finset Surface → List String → Except String (Finset Surface)
  | surf, [] => .ok surf
  | surf, word :: rest =>
    match Surface.ofName (pyUpper word) with
    | none => .error ("Unknown surface type " ++ word)
    | some s => addSurfaces (insert s surf) rest

/-- Item._parse_editor_block key loop. -/
def editorLoop : Nat → Item → List Tok → Except String (Item × List Tok)
  | 0, _, _ => .error "Parser fuel exhausted"
  | fuel + 1, it, ts =>
    match blockNext "Editor" ts with
    | .error e => .error e
    | .ok (.done rest) => .ok (it, rest)
    | .ok (.key key rest) =>
      let folded_key := (pyLower key)
      if folded_key = "subtype" then
        match SubType.parse rest with
        | .error e => .error e
        | .ok (st, rest2) => editorLoop fuel { it with subtypes := it.subtypes ++ [st] } rest2
      else if folded_key = "animations" then
        match parseAnimBlock it.animations rest with
        | .error e => .error e
        | .ok (a, rest2) => editorLoop fuel { it with animations := a } rest2
      else if folded_key = "movementhandle" then
        match expectString rest with
        | .error e => .error e
        | .ok (v, rest2) =>
          match Handle.ofValue (pyUpper v) with
          | none => .error ("Unknown handle type " ++ v)
          | some hd => editorLoop fuel { it with handle := hd } rest2
      else if folded_key = "invalidsurface" then
        match expectString rest with
        | .error e => .error e
        | .ok (v, rest2) =>
          match addSurfaces it.invalid_surf (pySplit v) with
          | .error e => .error e
          | .ok surf => editorLoop fuel { it with invalid_surf := surf } rest2
      else if folded_key = "subtypeproperty" then
        match expectString rest with
        | .error e => .error e
        | .ok (v, rest2) =>
          match dictGet PROP_TYPES (pyLower v) with
          | none =>
            -- The source catches only ValueError here; the KeyError from the
            -- registry lookup escapes uncaught, still aborting the parse.
            .error ("KeyError: " ++ (pyLower v))
          | some pt => editorLoop fuel { it with subtype_prop := some pt } rest2
      else if folded_key = "desiredfacing" then
        match expectString rest with
        | .error e => .error e
        | .ok (v, rest2) =>
          match DesiredFacing.ofValue (pyUpper v) with
          | none => .error ("Unknown desired facing " ++ v)
          | some fc => editorLoop fuel { it with facing := fc } rest2
      else if folded_key = "rendercolor" then
        match expectString rest with
        | .error e => .error e
        | .ok (_, rest2) => editorLoop fuel it rest2
      else
        match dictGet BOOL_ATTRS folded_key with
        | none => .error ("Unknown editor option " ++ key)
        | some attr =>
          match expectString rest with
          | .error e => .error e
          | .ok (v, rest2) => editorLoop fuel (setBoolAttr it attr (convBool v false)) rest2

/-- Item._parse_editor_block. -/
def parseEditorBlock (it : Item) (ts : List Tok) : Except String (Item × List Tok) :=
  match blockStart "Editor" ts with
  | .error e => .error e
  | .ok rest => editorLoop (rest.length + 1) it rest

/-- The per-property options loop: (default, index, user_default) state. -/
def propOptLoop : Nat → String × Int × Bool → List Tok →
    Except String ((String × Int × Bool) × List Tok)
  | 0, _, _ => .error "Parser fuel exhausted"
  | fuel + 1, st, ts =>
    match blockNext "options" ts with
    | .error e => .error e
    | .ok (.done rest) => .ok (st, rest)
    | .ok (.key key rest) =>
      let prop_value := (pyLower key)
      if prop_value = "defaultvalue" then
        match expectString rest with
        | .error e => .error e
        | .ok (v, rest2) => propOptLoop fuel (v, st.2.1, st.2.2) rest2
      else if prop_value = "index" then
        match expectString rest with
        | .error e => .error e
        | .ok (v, rest2) => propOptLoop fuel (st.1, convInt v, st.2.2) rest2
      else if prop_value = "bee2_ignore" then
        match expectString rest with
        | .error e => .error e
        | .ok (v, rest2) => propOptLoop fuel (st.1, st.2.1, convBool v st.2.2) rest2
      else .error ("Unknown property option \"" ++ prop_value ++ "\"!")

/-- Item._parse_properties_block key loop. -/
def propsLoop : Nat → List (String × ItemProp) → List Tok →
    Except String (List (String × ItemProp) × List Tok)
  | 0, _, _ => .error "Parser fuel exhausted"
  | fuel + 1, props, ts =>
    match blockNext "Properties" ts with
    | .error e => .error e
    | .ok (.done rest) => .ok (props, rest)
    | .ok (.key prop_str rest) =>
      match dictGet PROP_TYPES (pyLower prop_str) with
      | none => .error ("Unknown property \"" ++ prop_str ++ "\"!")
      | some prop_type =>
        match blockStart (prop_str ++ " options") rest with
        | .error e => .error e
        | .ok rest2 =>
          match propOptLoop (rest2.length + 1) ("", 0, true) rest2 with
          | .error e => .error e
          | .ok ((dflt, index, user_default), rest3) =>
            match propConstruct prop_type dflt index user_default with
            | none =>
              .error ("Default value " ++ dflt ++ " is not valid for "
                ++ prop_type.id ++ " properties!")
            | some prop => propsLoop fuel (dictSet props prop_type.id prop) rest3

/-- Item._parse_properties_block. -/
def parsePropertiesBlock (props : List (String × ItemProp)) (ts : List Tok) :
    Except String (List (String × ItemProp) × List Tok) :=
  match blockStart "Properties" ts with
  | .error e => .error e
  | .ok rest => propsLoop (rest.length + 1) props rest

end EditorItems

namespace EditorItems

/-- The in-progress state of one connection Point block. -/
structure PointState where
  direction : Option ConnSide
  pos : Option Coord
  sign_pos : Option Coord
  group_id : Option Int
  priority : Int
deriving DecidableEq, Repr

/-- The initial state of a Point block. -/
def PointState.init : PointState := ⟨none, none, none, none, 0⟩

/-- The Point block key loop of Item._parse_connection_points. -/
def pointLoop : Nat → PointState → List Tok → Except String (PointState × List Tok)
  | 0, _, _ => .error "Parser fuel exhausted"
  | fuel + 1, st, ts =>
    match blockNext "Point" ts with
    | .error e => .error e
    | .ok (.done rest) => .ok (st, rest)
    | .ok (.key conn_key rest) =>
      let folded_key := (pyLower conn_key)
      if folded_key = "dir" then
        match expectString rest with
        | .error e => .error e
        | .ok (v, rest2) =>
          match ConnSide.parse v with
          | .error e => .error e
          | .ok d => pointLoop fuel { st with direction := some d } rest2
      else if folded_key = "pos" then
        match expectString rest with
        | .error e => .error e
        | .ok (v, rest2) =>
          match Coord.parse v with
          | .error e => .error e
          | .ok c => pointLoop fuel { st with pos := some c } rest2
      else if folded_key = "signageoffset" then
        match expectString rest with
        | .error e => .error e
        | .ok (v, rest2) =>
          match Coord.parse v with
          | .error e => .error e
          | .ok c => pointLoop fuel { st with sign_pos := some c } rest2
      else if folded_key = "priority" then
        match expectString rest with
        | .error e => .error e
        | .ok (v, rest2) => pointLoop fuel { st with priority := convInt v } rest2
      else if folded_key = "groupid" then
        match expectString rest with
        | .error e => .error e
        | .ok (v, rest2) => pointLoop fuel { st with group_id := some (convInt v) } rest2
      else .error ("Unknown point option \"" ++ folded_key ++ "\"!")

/-- Item._parse_connection_points key loop. -/
def connPointsLoop : Nat → AntSides → List Tok → Except String (AntSides × List Tok)
  | 0, _, _ => .error "Parser fuel exhausted"
  | fuel + 1, ants, ts =>
    match blockNext "ConnectionPoints" ts with
    | .error e => .error e
    | .ok (.done rest) => .ok (ants, rest)
    | .ok (.key point_key rest) =>
      if (pyLower point_key) ≠ "point" then
        .error ("Unknown connection point \"" ++ point_key ++ "\"!")
      else
        match blockStart "Point" rest with
        | .error e => .error e
        | .ok rest2 =>
          match pointLoop (rest2.length + 1) PointState.init rest2 with
          | .error e => .error e
          | .ok (ps, rest3) =>
            match ps.direction with
            | none => .error "No direction for connection point!"
            | some direction =>
              match ps.pos with
              | none => .error "No position for connection point!"
              | some pos =>
                match ps.sign_pos with
                | none => .error "No signage position for connection point!"
                | some sign_pos =>
                  connPointsLoop fuel
                    (ants.add direction ⟨pos, sign_pos, ps.priority, ps.group_id⟩) rest3

/-- Item._parse_connection_points. -/
def parseConnectionPoints (ants : AntSides) (ts : List Tok) :
    Except String (AntSides × List Tok) :=
  match blockStart "ConnectionPoints" ts with
  | .error e => .error e
  | .ok rest => connPointsLoop (rest.length + 1) ants rest

/-- The Volume sub-block key loop: collect Pos1 / Pos2. -/
def volumeLoop : Nat → Option Coord × Option Coord → List Tok →
    Except String ((Option Coord × Option Coord) × List Tok)
  | 0, _, _ => .error "Parser fuel exhausted"
  | fuel + 1, st, ts =>
    match blockNext "EmbeddedVolume" ts with
    | .error e => .error e
    | .ok (.done rest) => .ok (st, rest)
    | .ok (.key pos_key rest) =>
      if (pyLower pos_key) = "pos1" then
        match expectString rest with
        | .error e => .error e
        | .ok (v, rest2) =>
          match Coord.parse v with
          | .error e => .error e
          | .ok c => volumeLoop fuel (some c, st.2) rest2
      else if (pyLower pos_key) = "pos2" then
        match expectString rest with
        | .error e => .error e
        | .ok (v, rest2) =>
          match Coord.parse v with
          | .error e => .error e
          | .ok c => volumeLoop fuel (st.1, some c) rest2
      else .error ("Unknown volume key \"" ++ pos_key ++ "\"!")

/-- The Voxel sub-block key loop: single positions. -/
def voxelLoop : Nat → Finset Coord → List Tok → Except String (Finset Coord × List Tok)
  | 0, _, _ => .error "Parser fuel exhausted"
  | fuel + 1, voxels, ts =>
    match blockNext "EmbeddedVoxel" ts with
    | .error e => .error e
    | .ok (.done rest) => .ok (voxels, rest)
    | .ok (.key pos_key rest) =>
      if (pyLower pos_key) = "pos" then
        match expectString rest with
        | .error e => .error e
        | .ok (v, rest2) =>
          match Coord.parse v with
          | .error e => .error e
          | .ok c => voxelLoop fuel (insert c voxels) rest2
      else .error ("Unknown voxel key \"" ++ pos_key ++ "\"!")

/-- range(lo, hi+1) over integers. -/
def intRange (lo hi : Int) : List Int :=
  (List.range (hi + 1 - lo).toNat).map (fun i => lo + Int.ofNat i)

/-- The triple loop of the Volume case: every lattice point of the inclusive
box between the two corners, min/max taken per axis. -/
def volumeCoords (p1 p2 : Coord) : List Coord :=
  (intRange (min p1.x p2.x) (max p1.x p2.x)).flatMap (fun x =>
    (intRange (min p1.y p2.y) (max p1.y p2.y)).flatMap (fun y =>
      (intRange (min p1.z p2.z) (max p1.z p2.z)).map (fun z => (⟨x, y, z⟩ : Coord))))

/-- Add every lattice point of the volume to the embedded-voxel set. -/
def addVolume (voxels : Finset Coord) (p1 p2 : Coord) : Finset Coord :=
  (volumeCoords p1 p2).foldl (fun s c => insert c s) voxels

/-- Item._parse_embedded_voxels key loop.  Note the source has no else branch:
a key that is neither Volume nor Voxel is silently ignored. -/
def embVoxLoop : Nat → Finset Coord → List Tok → Except String (Finset Coord × List Tok)
  | 0, _, _ => .error "Parser fuel exhausted"
  | fuel + 1, voxels, ts =>
    match blockNext "EmbeddedVoxels" ts with
    | .error e => .error e
    | .ok (.done rest) => .ok (voxels, rest)
    | .ok (.key embed_key rest) =>
      let folded_key := (pyLower embed_key)
      if folded_key = "volume" then
        match blockStart "EmbeddedVolume" rest with
        | .error e => .error e
        | .ok rest2 =>
          match volumeLoop (rest2.length + 1) (none, none) rest2 with
          | .error e => .error e
          | .ok ((p1, p2), rest3) =>
            match p1, p2 with
            | some pos_1, some pos_2 =>
              embVoxLoop fuel (addVolume voxels pos_1 pos_2) rest3
            | _, _ => .error "Missing coordinate for volume!"
      else if folded_key = "voxel" then
        match blockStart "EmbeddedVoxel" rest with
        | .error e => .error e
        | .ok rest2 =>
          match voxelLoop (rest2.length + 1) voxels rest2 with
          | .error e => .error e
          | .ok (voxels2, rest3) => embVoxLoop fuel voxels2 rest3
      else embVoxLoop fuel voxels rest

/-- Item._parse_embedded_voxels. -/
def parseEmbeddedVoxels (voxels : Finset Coord) (ts : List Tok) :
    Except String (Finset Coord × List Tok) :=
  match blockStart "EmbeddedVoxels" ts with
  | .error e => .error e
  | .ok rest => embVoxLoop (rest.length + 1) voxels rest

/-- The in-progress state of one EmbedFace Solid block. -/
structure SolidState where
  center : Option Vec
  size : Option Vec
  grid : FaceType
deriving DecidableEq, Repr

/-- The Solid block key loop. -/
def solidLoop : Nat → SolidState → List Tok → Except String (SolidState × List Tok)
  | 0, _, _ => .error "Parser fuel exhausted"
  | fuel + 1, st, ts =>
    match blockNext "Solid" ts with
    | .error e => .error e
    | .ok (.done rest) => .ok (st, rest)
    | .ok (.key opt_key rest) =>
      let folded_key := (pyLower opt_key)
      if folded_key = "center" then
        match expectString rest with
        | .error e => .error e
        | .ok (v, rest2) => solidLoop fuel { st with center := some (Vec.fromStr v) } rest2
      else if folded_key = "dimensions" then
        match expectString rest with
        | .error e => .error e
        | .ok (v, rest2) => solidLoop fuel { st with size := some (Vec.fromStr v) } rest2
      else if folded_key = "grid" then
        match expectString rest with
        | .error e => .error e
        | .ok (grid_str, rest2) =>
          match FaceType.ofValue (pyLower grid_str) with
          | none => .error ("Unknown face type \"" ++ grid_str ++ "\"!")
          | some g => solidLoop fuel { st with grid := g } rest2
      else .error ("Unknown Embed Face option \"" ++ opt_key ++ "\"!")

/-- Item._parse_embed_faces key loop. -/
def embFaceLoop : Nat → List EmbedFace → List Tok →
    Except String (List EmbedFace × List Tok)
  | 0, _, _ => .error "Parser fuel exhausted"
  | fuel + 1, faces, ts =>
    match blockNext "EmbedFace" ts with
    | .error e => .error e
    | .ok (.done rest) => .ok (faces, rest)
    | .ok (.key solid_key rest) =>
      if (pyLower solid_key) ≠ "solid" then
        .error ("Unknown Embed Face type \"" ++ solid_key ++ "\"!")
      else
        match blockStart "Solid" rest with
        | .error e => .error e
        | .ok rest2 =>
          match solidLoop (rest2.length + 1) ⟨none, none, .NORMAL⟩ rest2 with
          | .error e => .error e
          | .ok (ss, rest3) =>
            match ss.center with
            | none => .error "No position specified for embedded face!"
            | some center =>
              match ss.size with
              | none => .error "No size specified for embedded face!"
              | some size => embFaceLoop fuel (faces ++ [⟨center, size, ss.grid⟩]) rest3

/-- Item._parse_embed_faces. -/
def parseEmbedFaces (faces : List EmbedFace) (ts : List Tok) :
    Except String (List EmbedFace × List Tok) :=
  match blockStart "EmbedFace" ts with
  | .error e => .error e
  | .ok rest => embFaceLoop (rest.length + 1) faces rest

/-- The in-progress state of one Overlay block. -/
structure OverlayState where
  center : Option Vec
  size : Option Vec
  material : String
  rotation : Int
deriving DecidableEq, Repr

/-- The Overlay block key loop. -/
def overlayLoop : Nat → OverlayState → List Tok → Except String (OverlayState × List Tok)
  | 0, _, _ => .error "Parser fuel exhausted"
  | fuel + 1, st, ts =>
    match blockNext "Overlay" ts with
    | .error e => .error e
    | .ok (.done rest) => .ok (st, rest)
    | .ok (.key opt_key rest) =>
      let folded_key := (pyLower opt_key)
      if folded_key = "center" then
        match expectString rest with
        | .error e => .error e
        | .ok (v, rest2) => overlayLoop fuel { st with center := some (Vec.fromStr v) } rest2
      else if folded_key = "dimensions" then
        match expectString rest with
        | .error e => .error e
        | .ok (v, rest2) => overlayLoop fuel { st with size := some (Vec.fromStr v) } rest2
      else if folded_key = "material" then
        match expectString rest with
        | .error e => .error e
        | .ok (v, rest2) => overlayLoop fuel { st with material := v } rest2
      else if folded_key = "rotation" then
        match expectString rest with
        | .error e => .error e
        | .ok (v, rest2) => overlayLoop fuel { st with rotation := convInt v } rest2
      else .error ("Unknown Overlay option \"" ++ opt_key ++ "\"!")

/-- Item._parse_overlay: one Overlay block appended to the list. -/
def parseOverlay (overlays : List Overlay) (ts : List Tok) :
    Except String (List Overlay × List Tok) :=
  match blockStart "Overlay" ts with
  | .error e => .error e
  | .ok rest =>
    match overlayLoop (rest.length + 1) ⟨none, none, "", 0⟩ rest with
    | .error e => .error e
    | .ok (os, rest2) =>
      match os.center with
      | none => .error "No position specified for overlay!"
      | some center =>
        match os.size with
        | none => .error "No size specified for overlay!"
        | some size => .ok (overlays ++ [⟨os.material, center, size, os.rotation⟩], rest2)

end EditorItems

namespace EditorItems

/-- The blank instance slot used to pad gaps: InstCount(FSPath(), 0, 0, 0). -/
def emptyInstance : InstCount := ⟨FSPath.empty, 0, 0, 0⟩

/-- The while-loop appending blank slots one at a time, with just enough fuel. -/
def padLoop (n : Int) : Nat → List InstCount → List InstCount
  | 0, l => l
  | fuel + 1, l =>
    if (l.length : Int) < n then padLoop n fuel (l ++ [emptyInstance]) else l

/-- `while inst_ind > len(self.instances): append blank`. -/
def padTo (l : List InstCount) (n : Int) : List InstCount :=
  padLoop n (n - l.length).toNat l

/-- Python list item assignment l[i] = v, negative indices included;
an out-of-range index is an (uncaught) IndexError. -/
def pyListSet {α : Type} (l : List α) (i : Int) (v : α) : Except String (List α) :=
  if 0 ≤ i ∧ i < (l.length : Int) then .ok (l.set i.toNat v)
  else if -(l.length : Int) ≤ i ∧ i < 0 then .ok (l.set (i + l.length).toNat v)
  else .error "IndexError: list assignment index out of range"

/-- The instance-parsing state: the slot list, custom slots and warnings. -/
structure InstState where
  instances : List InstCount
  cust_instances : List (String × FSPath)
  warnings : List String
deriving DecidableEq, Repr

/-- The inner instance block state (Name / counts). -/
structure InstBlockState where
  inst_file : Option String
  ent_count : Int
  brush_count : Int
  side_count : Int
deriving DecidableEq, Repr

/-- The instance sub-block key loop (brace already consumed). -/
def instBlockLoop : Nat → InstBlockState → List Tok →
    Except String (InstBlockState × List Tok)
  | 0, _, _ => .error "Parser fuel exhausted"
  | fuel + 1, st, ts =>
    match blockNext "Instances" ts with
    | .error e => .error e
    | .ok (.done rest) => .ok (st, rest)
    | .ok (.key block_key rest) =>
      let folded_key := (pyLower block_key)
      if folded_key = "name" then
        match expectString rest with
        | .error e => .error e
        | .ok (v, rest2) => instBlockLoop fuel { st with inst_file := some v } rest2
      else if folded_key = "entitycount" then
        match expectString rest with
        | .error e => .error e
        | .ok (v, rest2) => instBlockLoop fuel { st with ent_count := convInt v } rest2
      else if folded_key = "brushcount" then
        match expectString rest with
        | .error e => .error e
        | .ok (v, rest2) => instBlockLoop fuel { st with brush_count := convInt v } rest2
      else if folded_key = "brushsidecount" then
        match expectString rest with
        | .error e => .error e
        | .ok (v, rest2) => instBlockLoop fuel { st with side_count := convInt v } rest2
      else .error ("Unknown instance option " ++ block_key)

/-- The instance value: either a bare filename (zero counts) or a nested
block with a mandatory Name. -/
def parseInstValue (ts : List Tok) : Except String (InstCount × List Tok) :=
  match nextSkipNl ts with
  | .error e => .error e
  | .ok (.brOpen, rest) =>
    match instBlockLoop (rest.length + 1) ⟨none, 0, 0, 0⟩ rest with
    | .error e => .error e
    | .ok (bs, rest2) =>
      match bs.inst_file with
      | none => .error "No instance filename provided!"
      | some f => .ok (⟨FSPath.make f, bs.ent_count, bs.brush_count, bs.side_count⟩, rest2)
  | .ok (.str f, rest) => .ok (⟨FSPath.make f, 0, 0, 0⟩, rest)
  | .ok (_, _) => .error "Unexpected token in instance!"

/-- The LOGGER.warning text for a custom instance name without the prefix
marker (line/file attribution dropped). -/
def customInstWarning : String :=
  "Custom instance names should have bee2_ prefix"

/-- Item._parse_instance_block: one section of the Instances block. -/
def parseInstanceBlock (st : InstState) (inst_name : String) (ts : List Tok) :
    Except String (InstState × List Tok) :=
  match pyInt inst_name with
  | some inst_ind =>
    -- Add blank spots if this is past the end, before reading the value.
    let st2 : InstState := { st with instances := padTo st.instances inst_ind }
    match parseInstValue ts with
    | .error e => .error e
    | .ok (inst, rest) =>
      if inst_ind = (st2.instances.length : Int) then
        .ok ({ st2 with instances := st2.instances ++ [inst] }, rest)
      else
        match pyListSet st2.instances inst_ind inst with
        | .error e => .error e
        | .ok l => .ok ({ st2 with instances := l }, rest)
  | none =>
    let named := pyStartsWith (pyLower inst_name) "bee2_"
    let name2 := if named then pyDrop inst_name 5 else inst_name
    let st2 : InstState :=
      if named then st else { st with warnings := st.warnings ++ [customInstWarning] }
    match parseInstValue ts with
    | .error e => .error e
    | .ok (inst, rest) =>
      .ok ({ st2 with cust_instances := dictSet st2.cust_instances name2 inst.inst }, rest)

/-- The Instances block key loop. -/
def instancesLoop : Nat → InstState → List Tok → Except String (InstState × List Tok)
  | 0, _, _ => .error "Parser fuel exhausted"
  | fuel + 1, st, ts =>
    match blockNext "Instance" ts with
    | .error e => .error e
    | .ok (.done rest) => .ok (st, rest)
    | .ok (.key inst_name rest) =>
      match parseInstanceBlock st inst_name rest with
      | .error e => .error e
      | .ok (st2, rest2) => instancesLoop fuel st2 rest2

/-- The whole Instances block. -/
def parseInstancesBlock (st : InstState) (ts : List Tok) :
    Except String (InstState × List Tok) :=
  match blockStart "Instance" ts with
  | .error e => .error e
  | .ok rest => instancesLoop (rest.length + 1) st rest

/-- The brace-depth skip used for unknown Exporting keys: consume tokens,
counting depth, until the depth returns to (or below) zero at a closing
brace; at EOF simply stop. -/
def skipLoop : Int → List Tok → List Tok
  | _, [] => []
  | level, t :: ts =>
    match t with
    | .brOpen => skipLoop (level + 1) ts
    | .brClose => if level - 1 ≤ 0 then ts else skipLoop (level - 1) ts
    | _ => skipLoop level ts

/-- Item._parse_export_block key loop (state: item plus warnings). -/
def exportLoop : Nat → Item × List String → List Tok →
    Except String ((Item × List String) × List Tok)
  | 0, _, _ => .error "Parser fuel exhausted"
  | fuel + 1, st, ts =>
    match blockNext "Exporting" ts with
    | .error e => .error e
    | .ok (.done rest) => .ok (st, rest)
    | .ok (.key key rest) =>
      let folded_key := (pyLower key)
      if folded_key = "targetname" then
        match expectString rest with
        | .error e => .error e
        | .ok (v, rest2) => exportLoop fuel ({ st.1 with targetname := v }, st.2) rest2
      else if folded_key = "offset" then
        match expectString rest with
        | .error e => .error e
        | .ok (v, rest2) => exportLoop fuel ({ st.1 with offset := Vec.fromStr v }, st.2) rest2
      else if folded_key = "instances" then
        match parseInstancesBlock ⟨st.1.instances, st.1.cust_instances, st.2⟩ rest with
        | .error e => .error e
        | .ok (ist, rest2) =>
          exportLoop fuel
            ({ st.1 with instances := ist.instances, cust_instances := ist.cust_instances },
             ist.warnings) rest2
      else if folded_key = "connectionpoints" then
        match parseConnectionPoints st.1.antline_points rest with
        | .error e => .error e
        | .ok (ants, rest2) => exportLoop fuel ({ st.1 with antline_points := ants }, st.2) rest2
      else if folded_key = "embeddedvoxels" then
        match parseEmbeddedVoxels st.1.embed_voxels rest with
        | .error e => .error e
        | .ok (voxels, rest2) => exportLoop fuel ({ st.1 with embed_voxels := voxels }, st.2) rest2
      else if folded_key = "embedface" then
        match parseEmbedFaces st.1.embed_faces rest with
        | .error e => .error e
        | .ok (faces, rest2) => exportLoop fuel ({ st.1 with embed_faces := faces }, st.2) rest2
      else if folded_key = "overlay" then
        match parseOverlay st.1.overlays rest with
        | .error e => .error e
        | .ok (os, rest2) => exportLoop fuel ({ st.1 with overlays := os }, st.2) rest2
      else
        -- Unknown export options are skipped by brace counting, not fatal.
        exportLoop fuel st (skipLoop 0 rest)

/-- Item._parse_export_block. -/
def parseExportBlock (st : Item × List String) (ts : List Tok) :
    Except String ((Item × List String) × List Tok) :=
  match blockStart "Exporting" ts with
  | .error e => .error e
  | .ok rest => exportLoop (rest.length + 1) st rest

/-- Item.parse_one token loop: completion is signalled by a bare brace close. -/
def itemLoop : Nat → Item × List String → List Tok →
    Except String ((Item × List String) × List Tok)
  | 0, _, _ => .error "Parser fuel exhausted"
  | fuel + 1, st, ts =>
    match ts with
    | [] => .error "File ended without closing item block!"
    | .brClose :: rest =>
      if st.1.id = "" then .error "No item ID (Type) set!" else .ok (st, rest)
    | .nl :: rest => itemLoop fuel st rest
    | .brOpen :: _ => .error "Unexpected token in item block!"
    | .str v :: rest =>
      let tok_value := (pyLower v)
      if tok_value = "type" then
        if st.1.id ≠ "" then .error "Item ID (Type) set multiple times!"
        else
          match expectString rest with
          | .error e => .error e
          | .ok (idv, rest2) =>
            let idU := (pyUpper idv)
            if idU = "" then .error ("Invalid item ID (Type) \"" ++ idU ++ "\"")
            else itemLoop fuel ({ st.1 with id := idU }, st.2) rest2
      else if tok_value = "itemclass" then
        match expectString rest with
        | .error e => .error e
        | .ok (item_class, rest2) =>
          match ItemClass.ofId (pyLower item_class) with
          | none => .error ("Unknown item class " ++ item_class ++ "!")
          | some c => itemLoop fuel ({ st.1 with cls := c }, st.2) rest2
      else if tok_value = "editor" then
        match parseEditorBlock st.1 rest with
        | .error e => .error e
        | .ok (it2, rest2) => itemLoop fuel (it2, st.2) rest2
      else if tok_value = "properties" then
        match parsePropertiesBlock st.1.properties rest with
        | .error e => .error e
        | .ok (props, rest2) => itemLoop fuel ({ st.1 with properties := props }, st.2) rest2
      else if tok_value = "exporting" then
        match parseExportBlock st rest with
        | .error e => .error e
        | .ok (st2, rest2) => itemLoop fuel st2 rest2
      else if tok_value = "author" ∨ tok_value = "description" ∨ tok_value = "filter" then
        match expectString rest with
        | .error e => .error e
        | .ok (_, rest2) => itemLoop fuel st rest2
      else .error ("Unexpected item option \"" ++ tok_value ++ "\"!")

/-- Item.parse_one (the "Item" key has been read already). -/
def parseOne (ts : List Tok) : Except String ((Item × List String) × List Tok) :=
  match expectOpen ts with
  | .error e => .error e
  | .ok rest => itemLoop (rest.length + 1) (Item.init "" .UNCLASSED, []) rest

/-- The in-progress state of one Renderable item block. -/
structure RenderState where
  kind : Option RenderableType
  model : String
  anims : List (Anim × Int)
deriving DecidableEq, Repr

/-- The Renderable item key loop. -/
def renderLoop : Nat → RenderState → List Tok → Except String (RenderState × List Tok)
  | 0, _, _ => .error "Parser fuel exhausted"
  | fuel + 1, st, ts =>
    match blockNext "Renderable Item" ts with
    | .error e => .error e
    | .ok (.done rest) => .ok (st, rest)
    | .ok (.key key rest) =>
      if (pyLower key) = "type" then
        match expectString rest with
        | .error e => .error e
        | .ok (render_id, rest2) =>
          match RenderableType.ofId (pyLower render_id) with
          | none => .error ("Unknown Renderable \"" ++ render_id ++ "\"!")
          | some k => renderLoop fuel { st with kind := some k } rest2
      else if (pyLower key) = "animations" then
        match parseAnimBlock st.anims rest with
        | .error e => .error e
        | .ok (a, rest2) => renderLoop fuel { st with anims := a } rest2
      else if (pyLower key) = "model" then
        match expectString rest with
        | .error e => .error e
        | .ok (v, rest2) => renderLoop fuel { st with model := v } rest2
      else .error ("Unknown renderable option \"" ++ key ++ "\"!")

/-- Renderable.parse. -/
def Renderable.parse (ts : List Tok) : Except String (Renderable × List Tok) :=
  match blockStart "Renderable Item" ts with
  | .error e => .error e
  | .ok rest =>
    match renderLoop (rest.length + 1) ⟨none, "", []⟩ rest with
    | .error e => .error e
    | .ok (rs, rest2) =>
      match rs.kind with
      | none => .error "No type specified for Renderable!"
      | some kind => .ok (⟨kind, rs.model, rs.anims⟩, rest2)

/-- The Renderables block key loop. -/
def renderablesLoop : Nat → List (RenderableType × Renderable) → List Tok →
    Except String (List (RenderableType × Renderable) × List Tok)
  | 0, _, _ => .error "Parser fuel exhausted"
  | fuel + 1, icons, ts =>
    match blockNext "Renderables" ts with
    | .error e => .error e
    | .ok (.done rest) => .ok (icons, rest)
    | .ok (.key render_block rest) =>
      if (pyLower render_block) ≠ "item" then
        .error ("Unknown block \"" ++ render_block ++ "\"!")
      else
        match Renderable.parse rest with
        | .error e => .error e
        | .ok (ico, rest2) => renderablesLoop fuel (dictSet icons ico.type ico) rest2

/-- LOGGER.warning('Item ... redeclared!'). -/
def redeclWarning (item_id : String) : String := "Item " ++ item_id ++ " redeclared!"

/-- The ItemData block key loop of Item.parse. -/
def itemDataLoop : Nat → Doc → List Tok → Except String (Doc × List Tok)
  | 0, _, _ => .error "Parser fuel exhausted"
  | fuel + 1, doc, ts =>
    match blockNext "ItemData" ts with
    | .error e => .error e
    | .ok (.done rest) => .ok (doc, rest)
    | .ok (.key key rest) =>
      if (pyLower key) = "item" then
        match parseOne rest with
        | .error e => .error e
        | .ok ((it, warns), rest2) =>
          let warns2 := doc.warnings ++ warns ++
            (if dictContains doc.items it.id then [redeclWarning it.id] else [])
          itemDataLoop fuel ⟨dictSet doc.items it.id it, doc.icons, warns2⟩ rest2
      else if (pyLower key) = "renderables" then
        match blockStart "Renderables" rest with
        | .error e => .error e
        | .ok rest2 =>
          match renderablesLoop (rest2.length + 1) doc.icons rest2 with
          | .error e => .error e
          | .ok (icons, rest3) => itemDataLoop fuel { doc with icons := icons } rest3
      else .error ("Unknown block \"" ++ key ++ "\"!")

/-- Item.parse on a token stream: expect the ItemData literal, then the block. -/
def parseItems (ts : List Tok) : Except String Doc :=
  match expectString ts with
  | .error e => .error e
  | .ok (v, rest) =>
    if (pyLower v) ≠ "itemdata" then .error "No \"ItemData\" block present!"
    else
      match blockStart "ItemData" rest with
      | .error e => .error e
      | .ok rest2 =>
        match itemDataLoop (rest2.length + 1) ⟨[], [], []⟩ rest2 with
        | .error e => .error e
        | .ok (doc, _) => .ok doc

/-- Item.parse on raw text. -/
def parseDocument (s : String) : Except String Doc :=
  match tokenize s with
  | .error e => .error e
  | .ok ts => parseItems ts

/-- Parse a single serialized item: the text export_one writes starts with the
"Item" key, then the parse_one body. -/
def parseOneText (s : String) : Except String Item :=
  match tokenize s with
  | .error e => .error e
  | .ok ts =>
    match expectString ts with
    | .error e => .error e
    | .ok (k, rest) =>
      if (pyLower k) ≠ "item" then .error "Expected an Item block!"
      else
        match parseOne rest with
        | .error e => .error e
        | .ok ((it, _), _) => .ok it

end EditorItems

namespace EditorItems

/-- "x y z" coordinate formatting used throughout export_one. -/
def coordStr (c : Coord) : String :=
  toString c.x ++ " " ++ toString c.y ++ " " ++ toString c.z

/-- The direction string export_one writes for a side's Dir line:
the side's enum-value Coord, space separated. -/
def dirValueString (side : ConnSide) : String := coordStr side.value

/-- side.name.title() for the per-direction comment. -/
def ConnSide.title : ConnSide → String
  | .LEFT => "Left"
  | .RIGHT => "Right"
  | .UP => "Up"
  | .DOWN => "Down"

/-- The `for snd_type in Sound:` iteration order (class definition order). -/
def soundOrder : List Sound :=
  [.SELECT, .DESELECT, .DELETE, .CREATE, .PROPS_OPEN, .PROPS_CLOSE]

/-- SubType.export: serialize one subtype.  Line 578 of the source really does
write the animation table under a "Sounds" header. -/
def SubType.export (st : SubType) : String :=
  "\t\t\"Subtype\"\n\t\t\t\x7b\n"
  ++ (if st.name ≠ "" then "\t\t\t\"Name\" \"" ++ st.name ++ "\"\n" else "")
  ++ String.join (st.models.map (fun model =>
      -- It has to be a .3ds file, even though it's really MDL.
      "\t\t\t\"Model\" \x7b \"ModelName\" \"" ++ (model.withSuffix ".3ds").s ++ "\" \x7d\n"))
  ++ (match st.pal_pos with
      | none => ""
      | some (x, y) =>
        "\t\t\t\"Palette\"\n\t\t\t\t\x7b\n"
        ++ "\t\t\t\t\"Tooltip\"  \"" ++ st.pal_name ++ "\"\n"
        ++ (match st.pal_icon with
            | none => ""
            | some icon =>
              -- Similarly needs to be PNG even though it's really VTF.
              "\t\t\t\t\"Image\"    \"" ++ (icon.withSuffix ".png").s ++ "\"\n")
        ++ "\t\t\t\t\"Position\" \"" ++ toString x ++ " " ++ toString y ++ " 0\"\n"
        ++ "\t\t\t\t\x7d\n")
  ++ (if ¬ (dictEq st.sounds DEFAULT_SOUNDS) then
        "\t\t\t\"Sounds\"\n\t\t\t\t\x7b\n"
        ++ String.join (soundOrder.map (fun snd =>
            match dictGet st.sounds snd with
            | none => ""
            | some sndscript =>
              "\t\t\t\t\"" ++ snd.value ++ "\" \"" ++ sndscript ++ "\"\n"))
        ++ "\t\t\t\t\x7d\n"
      else "")
  ++ (if st.anims ≠ [] then
        "\t\t\t\"Sounds\"\n\t\t\t\t\x7b\n"
        ++ String.join ((st.anims.mergeSort (fun a b => decide (a.2 ≤ b.2))).map
            (fun p =>
              "\t\t\t\t\"" ++ p.1.value ++ "\" \"" ++ toString p.2 ++ "\"\n"))
        ++ "\t\t\t\t\x7d\n"
      else "")
  ++ "\t\t\t\x7d\n"

/-- any(self.antline_points.values()). -/
def AntSides.any (a : AntSides) : Bool :=
  a.left ≠ [] ∨ a.right ≠ [] ∨ a.up ≠ [] ∨ a.down ≠ []

/-- The ConnectionPoints block: points grouped by side in enum order, each
non-empty group preceded by a comment and separated by blank lines. -/
def connPointLines (ants : AntSides) : String :=
  String.intercalate "\n"
    (([ConnSide.LEFT, .RIGHT, .UP, .DOWN].filter (fun side => ants.get side ≠ [])).map
      (fun side =>
        "\t\t\t// " ++ side.title ++ "\n"
        ++ String.join ((ants.get side).map (fun point =>
            "\t\t\t\"Point\"\n\t\t\t\t\x7b\n"
            ++ "\t\t\t\t\"Dir\"           \"" ++ dirValueString side ++ "\"\n"
            ++ "\t\t\t\t\"Pos\"           \"" ++ coordStr point.pos ++ "\"\n"
            ++ "\t\t\t\t\"SignageOffset\" \"" ++ coordStr point.sign_off ++ "\"\n"
            ++ "\t\t\t\t\"Priority\"      \"" ++ toString point.priority ++ "\"\n"
            ++ (match point.group with
                | none => ""
                | some g => "\t\t\t\t\"GroupID\"       \"" ++ toString g ++ "\"\n")
            ++ "\t\t\t\t\x7d\n"))))

/-- ' '.join(sorted(surf.value for surf in invalid_surf)). -/
def surfJoin (surf : Finset Surface) : String :=
  String.intercalate " "
    (["CEILING", "FLOOR", "WALL"].filter (fun v =>
      decide (∃ s ∈ surf, Surface.value s = v)))

/-- Item.export_one: write a single item out. -/
def Item.exportOne (it : Item) : String :=
  "\"Item\"\n\t\x7b\n"
  ++ (if it.cls ≠ ItemClass.UNCLASSED then
        "\t\"Type\"      \"" ++ it.id ++ "\"\n"
        ++ "\t\"ItemClass\" \"" ++ it.cls.id ++ "\"\n"
      else "\t\"Type\" \"" ++ it.id ++ "\"\n")
  ++ "\t\"Editor\"\n\t\t\x7b\n"
  ++ (match it.subtype_prop with
      | none => ""
      | some pt => "\t\t\"SubtypeProperty\" \"" ++ pt.id ++ "\"\n")
  ++ String.join (it.subtypes.map SubType.export)
  ++ "\t\t\"MovementHandle\" \"" ++ it.handle.value ++ "\"\n"
  ++ "\t\t\"OccupiesVoxel\"  \"" ++ (if it.occupies_voxel then "1" else "0") ++ "\"\n"
  ++ (if it.facing ≠ DesiredFacing.NONE then
        "\t\t\"DesiredFacing\"  \"" ++ it.facing.value ++ "\"\n"
      else "")
  ++ (if it.invalid_surf.Nonempty then
        "\t\t\"InvalidSurface\" \"" ++ surfJoin it.invalid_surf ++ "\"\n"
      else "")
  ++ (if it.anchor_goo then "\t\t\"CanAnchorOnGoo\"      \"1\"\n" else "")
  ++ (if it.anchor_barriers then "\t\t\"CanAnchorOnBarriers\" \"1\"\n" else "")
  ++ (if ¬ it.copiable then "\t\t\"Copyable\"  \"0\"\n" else "")
  ++ (if ¬ it.deletable then "\t\t\"Deletable\" \"0\"\n" else "")
  ++ (if it.pseduo_handle then "\t\t\"PseudoHandle\" \"1\"\n" else "")
  ++ "\t\t\x7d\n"
  ++ (if it.properties ≠ [] then
        "\t\"Properties\"\n\t\t\x7b\n"
        ++ String.join (it.properties.map (fun p =>
            "\t\t\"" ++ p.2.id ++ "\"\n\t\t\t\x7b\n"
            -- prop.export() of the external property type: the default string.
            ++ "\t\t\t\"DefaultValue\" \"" ++ p.2.dflt ++ "\"\n"
            ++ "\t\t\t\"Index\"        \"" ++ toString p.2.index ++ "\"\n"
            ++ "\t\t\t\x7d\n"))
        ++ "\t\t\x7d\n"
      else "")
  ++ "\t\"Exporting\"\n\t\t\x7b\n"
  ++ (if it.instances ≠ [] then
        "\t\t\"Instances\"\n\t\t\t\x7b\n"
        ++ String.join (it.instances.enum.map (fun p =>
            "\t\t\t\"" ++ toString p.1 ++ "\"\n\t\t\t\t\x7b\n"
            ++ (if p.2.inst = FSPath.empty then
                  "\t\t\t\t\"Name\" \"\"\n"
                else if p.2.ent_count ≠ 0 ∨ p.2.brush_count ≠ 0 ∨ p.2.face_count ≠ 0 then
                  "\t\t\t\t\"Name\"           \"" ++ p.2.inst.s ++ "\"\n"
                  ++ "\t\t\t\t\"EntityCount\"    \"" ++ toString p.2.ent_count ++ "\"\n"
                  ++ "\t\t\t\t\"BrushCount\"     \"" ++ toString p.2.brush_count ++ "\"\n"
                  ++ "\t\t\t\t\"BrushSideCount\" \"" ++ toString p.2.face_count ++ "\"\n"
                else "\t\t\t\t\"Name\" \"" ++ p.2.inst.s ++ "\"\n")
            ++ "\t\t\t\t\x7d\n"))
        ++ "\t\t\t\x7d\n"
      else "")
  ++ (if it.targetname ≠ "" then "\t\t\"Targetname\" \"" ++ it.targetname ++ "\"\n" else "")
  ++ "\t\t\"Offset\"     \"" ++ it.offset.str ++ "\"\n"
  ++ (if it.embed_voxels.Nonempty then
        "\t\t\"EmbeddedVoxels\"\n\t\t\t\x7b\n"
        ++ String.join ((boundingBoxes chooseMin it.embed_voxels).map (fun b =>
            (if b.1 = b.2 then
              "\t\t\t\"Voxel\"\n\t\t\t\t\x7b\n"
              ++ "\t\t\t\t\"Pos\" \"" ++ coordStr b.1 ++ "\"\n"
            else
              "\t\t\t\"Volume\"\n\t\t\t\t\x7b\n"
              ++ "\t\t\t\t\"Pos1\" \"" ++ coordStr b.1 ++ "\"\n"
              ++ "\t\t\t\t\"Pos2\" \"" ++ coordStr b.2 ++ "\"\n")
            ++ "\t\t\t\t\x7d\n"))
        ++ "\t\t\t\x7d\n"
      else "")
  ++ (if it.embed_faces ≠ [] then
        "\t\t\"EmbedFace\"\n\t\t\t\x7b\n"
        ++ String.join (it.embed_faces.map (fun face =>
            "\t\t\t\"Solid\"\n\t\t\t\t\x7b\n"
            ++ "\t\t\t\t\"Center\"     \"" ++ face.center.str ++ "\"\n"
            ++ "\t\t\t\t\"Dimensions\" \"" ++ face.size.str ++ "\"\n"
            ++ "\t\t\t\t\"Grid\"       \"" ++ face.type.value ++ "\"\n"
            ++ "\t\t\t\t\x7d\n"))
        ++ "\t\t\t\x7d\n"
      else "")
  ++ String.join (it.overlays.map (fun over =>
      "\t\t\"Overlay\"\n\t\t\t\x7b\n"
      ++ "\t\t\t\"Material\"   \"" ++ over.material ++ "\"\n"
      ++ "\t\t\t\"Center\"     \"" ++ over.center.str ++ "\"\n"
      ++ "\t\t\t\"Dimensions\" \"" ++ over.size.str ++ "\"\n"
      ++ "\t\t\t\"Rotation\"   \"" ++ toString over.rotation ++ "\"\n"
      ++ "\t\t\t\x7d\n"))
  ++ (if it.antline_points.any then
        "\t\t\"ConnectionPoints\"\n\t\t\t\x7b\n"
        ++ connPointLines it.antline_points
        ++ "\t\t\t\x7d\n"
      else "")
  ++ "\t\t\x7d\n"
  ++ "\t\x7d\n"

end EditorItems

deriving instance DecidableEq for Except

namespace EditorItems

/-- Balanced token sequences: every opening brace has its matching close. -/
inductive Balanced : List Tok → Prop
  | nil : Balanced []
  | tok : ∀ (t : Tok) (ts : List Tok), t ≠ Tok.brOpen → t ≠ Tok.brClose →
      Balanced ts → Balanced (t :: ts)
  | nest : ∀ (inner rest : List Tok), Balanced inner → Balanced rest →
      Balanced (Tok.brOpen :: inner ++ Tok.brClose :: rest)

/-- The round-trip probe item: every constructor default, except that the
anchor-on-goo flag is set. -/
def gooItem : Item := { Item.init "ITEM_TEST" ItemClass.UNCLASSED with anchor_goo := true }

end EditorItems

namespace EditorItems

set_option maxRecDepth 40000

/-- Claim C1: serializing a valid Item and re-parsing the text is claimed to
give a value-equal Item (modulo the extension swap).  Evaluating the code at
the failing input refutes this: export_one writes the set anchor_goo flag as
the key CanAnchorOnGoo, but the parser's _BOOL_ATTRS table routes that key to
anchor_barriers, so the round-tripped item has anchor_goo = false and
anchor_barriers = true: not value-equal to the input. -/
theorem export_import_drops_anchor_goo :
    gooItem.anchor_goo = true ∧
    (parseOneText (Item.exportOne gooItem)).map
      (fun it => (it.anchor_goo, it.anchor_barriers)) = .ok (false, true) := by
  constructor
  · rfl
  · decide

end EditorItems

namespace EditorItems

/-- Claim C10: ConnSide.parse maps the four flat unit vectors to the sides
carrying them as enum values; the exact direction string the serializer
writes for a side's Dir line parses back to that side; and any well-formed
integer vector that has nonzero z, or is not one of the four unit vectors,
is a fatal error. -/
theorem connside_parse_directions :
    (ConnSide.parse "1 0 0" = .ok .LEFT ∧ ConnSide.parse "-1 0 0" = .ok .RIGHT ∧
     ConnSide.parse "0 1 0" = .ok .UP ∧ ConnSide.parse "0 -1 0" = .ok .DOWN) ∧
    (∀ side : ConnSide, ConnSide.parse (dirValueString side) = .ok side) ∧
    (∀ (s a b c : String) (x y z : Int),
      ConnSide.ofName (pyUpper s) = none →
      pySplit s = [a, b, c] →
      pyInt a = some x → pyInt b = some y → pyInt c = some z →
      z ≠ 0 →
      ConnSide.parse s = .error "Connection side must be flat!") ∧
    (∀ (s a b c : String) (x y z : Int),
      ConnSide.ofName (pyUpper s) = none →
      pySplit s = [a, b, c] →
      pyInt a = some x → pyInt b = some y → pyInt c = some z →
      z = 0 →
      (x, y) ≠ (1, 0) → (x, y) ≠ (-1, 0) → (x, y) ≠ (0, 1) → (x, y) ≠ (0, -1) →
      ConnSide.parse s =
        .error ("Unknown connection side (" ++ toString x ++ ", " ++ toString y ++ ", 0)")) := by
  refine ⟨⟨by decide, by decide, by decide, by decide⟩, ?_, ?_, ?_⟩
  · intro side
    cases side <;> decide
  · intro s a b c x y z hname hsplit ha hb hc hz
    unfold ConnSide.parse
    simp only [hname, hsplit, ha, hb, hc]
    rw [if_pos hz]
  · intro s a b c x y z hname hsplit ha hb hc hz h1 h2 h3 h4
    unfold ConnSide.parse
    simp only [hname, hsplit, ha, hb, hc]
    split_ifs <;> simp_all

/-- Witness for connside_parse_directions at concrete inputs. -/
theorem connside_parse_directions_witness :
    ConnSide.parse "0 0 1" = .error "Connection side must be flat!" ∧
    ConnSide.parse "2 3 0" =
      .error ("Unknown connection side (" ++ toString (2 : Int) ++ ", "
        ++ toString (3 : Int) ++ ", 0)") :=
  ⟨connside_parse_directions.2.2.1 "0 0 1" "0" "0" "1" 0 0 1
      (by decide) (by decide) (by decide) (by decide) (by decide) (by decide),
   connside_parse_directions.2.2.2 "2 3 0" "2" "3" "0" 2 3 0
      (by decide) (by decide) (by decide) (by decide) (by decide) (by decide)
      (by decide) (by decide) (by decide) (by decide)⟩

end EditorItems

namespace EditorItems

/-- Membership in the integer range list is exactly the inclusive bounds. -/
theorem mem_intRange {lo hi a : Int} : a ∈ intRange lo hi ↔ lo ≤ a ∧ a ≤ hi := by
  unfold intRange
  constructor
  · intro h
    obtain ⟨i, hi2, rfl⟩ := List.mem_map.mp h
    have h3 := List.mem_range.mp hi2
    simp only [Int.ofNat_eq_natCast]
    omega
  · intro h
    exact List.mem_map.mpr ⟨(a - lo).toNat, List.mem_range.mpr (by omega),
      by simp only [Int.ofNat_eq_natCast]; omega⟩

/-- Folding insert over a list adds exactly the list's elements. -/
theorem mem_foldl_insert {l : List Coord} {s : Finset Coord} {q : Coord} :
    q ∈ l.foldl (fun acc c => insert c acc) s ↔ q ∈ s ∨ q ∈ l := by
  induction l generalizing s with
  | nil => simp
  | cons c rest ih =>
    simp only [List.foldl_cons, ih, Finset.mem_insert, List.mem_cons]
    tauto

/-- addVolume adds exactly the lattice points of the inclusive box between the
two corners, per-axis min/max taken, to the set. -/
theorem mem_addVolume {voxels : Finset Coord} {p1 p2 q : Coord} :
    q ∈ addVolume voxels p1 p2 ↔
      q ∈ voxels ∨
      (min p1.x p2.x ≤ q.x ∧ q.x ≤ max p1.x p2.x ∧
       min p1.y p2.y ≤ q.y ∧ q.y ≤ max p1.y p2.y ∧
       min p1.z p2.z ≤ q.z ∧ q.z ≤ max p1.z p2.z) := by
  unfold addVolume volumeCoords
  rw [mem_foldl_insert]
  simp only [List.mem_flatMap, List.mem_map, mem_intRange]
  constructor
  · rintro (hq | ⟨x, hx, y, hy, z, hz, rfl⟩)
    · exact Or.inl hq
    · exact Or.inr ⟨hx.1, hx.2, hy.1, hy.2, hz.1, hz.2⟩
  · rintro (hq | ⟨h1, h2, h3, h4, h5, h6⟩)
    · exact Or.inl hq
    · exact Or.inr ⟨q.x, ⟨h1, h2⟩, q.y, ⟨h3, h4⟩, q.z, ⟨⟨h5, h6⟩, rfl⟩⟩

/-- One Volume sub-block inside an EmbeddedVoxels block adds addVolume of its
two parsed corners and parsing continues. -/
theorem embVoxLoop_volume_step (fuel : Nat) (voxels : Finset Coord)
    (s1 s2 : String) (p1 p2 : Coord) (rest : List Tok)
    (h1 : Coord.parse s1 = .ok p1) (h2 : Coord.parse s2 = .ok p2) :
    embVoxLoop (fuel + 1) voxels
      (Tok.str "Volume" :: Tok.brOpen :: Tok.str "Pos1" :: Tok.str s1 ::
       Tok.str "Pos2" :: Tok.str s2 :: Tok.brClose :: rest)
    = embVoxLoop fuel (addVolume voxels p1 p2) rest := by
  have e1 : pyLower "Volume" = "volume" := by decide
  have e2 : pyLower "Pos1" = "pos1" := by decide
  have e3 : pyLower "Pos2" = "pos2" := by decide
  rw [embVoxLoop]
  simp [blockNext, skipNls, blockStart, expectString, volumeLoop, e1, e2, e3, h1, h2]

/-- Claim C7: a Volume block with corners pos_1 and pos_2 adds to the
embedded-voxel set exactly the lattice points of the inclusive axis-aligned
box with per-axis min/max bounds of the two corners (order independent), and
the concrete Pos1 "0 0 0" / Pos2 "1 1 0" volume is exactly the 4 points. -/
theorem volume_block_semantics :
    (∀ (fuel : Nat) (voxels : Finset Coord) (s1 s2 : String) (p1 p2 : Coord)
       (rest : List Tok),
      Coord.parse s1 = .ok p1 → Coord.parse s2 = .ok p2 →
      embVoxLoop (fuel + 1) voxels
        (Tok.str "Volume" :: Tok.brOpen :: Tok.str "Pos1" :: Tok.str s1 ::
         Tok.str "Pos2" :: Tok.str s2 :: Tok.brClose :: rest)
      = embVoxLoop fuel (addVolume voxels p1 p2) rest) ∧
    (∀ (p1 p2 q : Coord),
      q ∈ addVolume ∅ p1 p2 ↔
        (min p1.x p2.x ≤ q.x ∧ q.x ≤ max p1.x p2.x ∧
         min p1.y p2.y ≤ q.y ∧ q.y ≤ max p1.y p2.y ∧
         min p1.z p2.z ≤ q.z ∧ q.z ≤ max p1.z p2.z)) ∧
    addVolume ∅ ⟨0, 0, 0⟩ ⟨1, 1, 0⟩
      = ({⟨0, 0, 0⟩, ⟨1, 0, 0⟩, ⟨0, 1, 0⟩, ⟨1, 1, 0⟩} : Finset Coord) := by
  refine ⟨?_, ?_, by decide⟩
  · intro fuel voxels s1 s2 p1 p2 rest h1 h2
    exact embVoxLoop_volume_step fuel voxels s1 s2 p1 p2 rest h1 h2
  · intro p1 p2 q
    rw [mem_addVolume]
    simp

/-- Witness for volume_block_semantics: the step lemma applied at a concrete
Volume block from the empty set. -/
theorem volume_block_semantics_witness :
    embVoxLoop 1 (∅ : Finset Coord)
      [Tok.str "Volume", Tok.brOpen, Tok.str "Pos1", Tok.str "0 0 0",
       Tok.str "Pos2", Tok.str "1 1 0", Tok.brClose]
    = embVoxLoop 0 (addVolume ∅ ⟨0, 0, 0⟩ ⟨1, 1, 0⟩) [] :=
  volume_block_semantics.1 0 ∅ "0 0 0" "1 1 0" ⟨0, 0, 0⟩ ⟨1, 1, 0⟩ []
    (by decide) (by decide)

end EditorItems

namespace EditorItems

/-- The pad loop appends exactly its fuel's worth of blanks when the fuel is
the deficit. -/
theorem padLoop_eq : ∀ (fuel : Nat) (n : Int) (l : List InstCount),
    (n - l.length).toNat = fuel →
    padLoop n fuel l = l ++ List.replicate fuel emptyInstance := by
  intro fuel
  induction fuel with
  | zero =>
    intro n l h
    simp [padLoop]
  | succ k ih =>
    intro n l h
    unfold padLoop
    rw [if_pos (by omega)]
    rw [ih n (l ++ [emptyInstance]) (by simp; omega)]
    simp [List.replicate_succ]

/-- padTo pads the list with blank entries up to the requested length. -/
theorem padTo_eq (l : List InstCount) (n : Int) :
    padTo l n = l ++ List.replicate (n - l.length).toNat emptyInstance := by
  unfold padTo
  exact padLoop_eq _ n l rfl

/-- Claim C5: numeric instance slots keep the invariant that entry i is the
instance for slot i.  With a bare-scalar value: a slot beyond the current
length pads with blank placeholders so the entry lands at its index; a slot
at the current length appends; a slot below the length overwrites in place. -/
theorem instance_slot_semantics :
    ∀ (insts : List InstCount) (cust : List (String × FSPath)) (warns : List String)
      (name fname : String) (rest : List Tok) (n : Nat),
      pyInt name = some (n : Int) →
      ((n > insts.length →
        parseInstanceBlock ⟨insts, cust, warns⟩ name (Tok.str fname :: rest)
          = .ok (⟨insts ++ List.replicate (n - insts.length) emptyInstance
              ++ [⟨FSPath.make fname, 0, 0, 0⟩], cust, warns⟩, rest)) ∧
       (n = insts.length →
        parseInstanceBlock ⟨insts, cust, warns⟩ name (Tok.str fname :: rest)
          = .ok (⟨insts ++ [⟨FSPath.make fname, 0, 0, 0⟩], cust, warns⟩, rest)) ∧
       (n < insts.length →
        parseInstanceBlock ⟨insts, cust, warns⟩ name (Tok.str fname :: rest)
          = .ok (⟨insts.set n ⟨FSPath.make fname, 0, 0, 0⟩, cust, warns⟩, rest))) := by
  intro insts cust warns name fname rest n hname
  unfold parseInstanceBlock
  simp only [hname, padTo_eq, parseInstValue, nextSkipNl, skipNls]
  refine ⟨?_, ?_, ?_⟩
  · intro hgt
    have hcount : ((n : Int) - insts.length).toNat = n - insts.length := by omega
    rw [hcount]
    have hlen : (n : Int)
        = ((insts ++ List.replicate (n - insts.length) emptyInstance).length : Int) := by
      simp only [List.length_append, List.length_replicate]
      push_cast
      omega
    rw [if_pos hlen]
  · intro heq
    subst heq
    have hcount : ((insts.length : Int) - insts.length).toNat = 0 := by omega
    rw [hcount]
    simp
  · intro hlt
    have hcount : ((n : Int) - insts.length).toNat = 0 := by omega
    rw [hcount]
    simp only [List.replicate_zero, List.append_nil]
    rw [if_neg (by omega)]
    unfold pyListSet
    rw [if_pos (by constructor <;> omega)]
    simp

/-- Witness for instance_slot_semantics: slot "3" before any other slot gives
a 4-element list whose first three entries are blank placeholders. -/
theorem instance_slot_semantics_witness :
    parseInstanceBlock ⟨[], [], []⟩ "3" [Tok.str "foo.vmf"]
      = .ok (⟨[emptyInstance, emptyInstance, emptyInstance,
          ⟨FSPath.make "foo.vmf", 0, 0, 0⟩], [], []⟩, []) := by
  have h := (instance_slot_semantics [] [] [] "3" "foo.vmf" [] 3 (by decide)).1
    (by decide)
  simpa using h

end EditorItems

namespace EditorItems

/-- Claim C6 counterexample: a connection point whose Priority value is not a
valid integer parses without any error: conv_int silently substitutes 0, so
the whole ConnectionPoints block succeeds, refuting "parsing fails with a
fatal parse error" for malformed Priority / GroupID / Index literals. -/
theorem priority_malformed_not_fatal :
    parseConnectionPoints AntSides.empty
      [Tok.brOpen, Tok.str "Point", Tok.brOpen,
       Tok.str "Dir", Tok.str "1 0 0",
       Tok.str "Pos", Tok.str "1 2 3",
       Tok.str "SignageOffset", Tok.str "4 5 6",
       Tok.str "Priority", Tok.str "0x2A",
       Tok.brClose, Tok.brClose]
      = .ok (⟨[⟨⟨1, 2, 3⟩, ⟨4, 5, 6⟩, 0, none⟩], [], [], []⟩, []) := by
  decide

/-- Claim C6 amended: only the numeric literals inside coordinate triples
(Coord.parse, and likewise the direction/position vectors) are fatal parse
errors; the Priority, GroupID, property Index and animation-index values go
through conv_int, which silently substitutes 0 for a malformed integer and
parsing continues. -/
theorem malformed_numeric_policy :
    (∀ (s a b c : String),
      pySplit s = [a, b, c] → pyInt a = none →
      Coord.parse s = .error ("Invalid coordinate value \"" ++ a ++ "\"!")) ∧
    (∀ (fuel : Nat) (st : PointState) (v : String) (ts : List Tok),
      pyInt v = none →
      pointLoop (fuel + 1) st (Tok.str "Priority" :: Tok.str v :: ts)
        = pointLoop fuel { st with priority := 0 } ts) ∧
    (∀ (fuel : Nat) (st : PointState) (v : String) (ts : List Tok),
      pyInt v = none →
      pointLoop (fuel + 1) st (Tok.str "GroupID" :: Tok.str v :: ts)
        = pointLoop fuel { st with group_id := some 0 } ts) ∧
    (∀ (fuel : Nat) (st : String × Int × Bool) (v : String) (ts : List Tok),
      pyInt v = none →
      propOptLoop (fuel + 1) st (Tok.str "Index" :: Tok.str v :: ts)
        = propOptLoop fuel (st.1, 0, st.2.2) ts) ∧
    (∀ (fuel : Nat) (anims : List (Anim × Int)) (name v : String) (a : Anim)
       (ts : List Tok),
      Anim.ofValue name = some a → pyInt v = none →
      animLoop (fuel + 1) anims (Tok.str name :: Tok.str v :: ts)
        = animLoop fuel (dictSet anims a 0) ts) := by
  refine ⟨?_, ?_, ?_, ?_, ?_⟩
  · intro s a b c hsplit ha
    unfold Coord.parse
    simp only [hsplit, ha]
  · intro fuel st v ts hv
    have e : pyLower "Priority" = "priority" := by decide
    rw [pointLoop]
    simp [blockNext, skipNls, expectString, e, convInt, hv]
  · intro fuel st v ts hv
    have e : pyLower "GroupID" = "groupid" := by decide
    rw [pointLoop]
    simp [blockNext, skipNls, expectString, e, convInt, hv]
  · intro fuel st v ts hv
    have e : pyLower "Index" = "index" := by decide
    rw [propOptLoop]
    simp [blockNext, skipNls, expectString, e, convInt, hv]
  · intro fuel anims name v a ts hname hv
    rw [animLoop]
    simp [blockNext, skipNls, expectString, hname, convInt, hv]

/-- Witness for malformed_numeric_policy at concrete malformed literals. -/
theorem malformed_numeric_policy_witness :
    Coord.parse "4x 0 0" = .error ("Invalid coordinate value \"" ++ "4x" ++ "\"!") ∧
    pointLoop 1 PointState.init [Tok.str "Priority", Tok.str "zz"]
      = pointLoop 0 { PointState.init with priority := 0 } [] ∧
    animLoop 1 [] [Tok.str "ANIM_IDLE", Tok.str "zz"]
      = animLoop 0 (dictSet [] Anim.IDLE 0) [] :=
  ⟨malformed_numeric_policy.1 "4x 0 0" "4x" "0" "0" (by decide) (by decide),
   malformed_numeric_policy.2.1 0 PointState.init "zz" [] (by decide),
   malformed_numeric_policy.2.2.2.2 0 [] "ANIM_IDLE" "zz" Anim.IDLE [] (by decide) (by decide)⟩

end EditorItems

namespace EditorItems

/-- One skip step: an opening brace raises the level. -/
theorem skipLoop_open (lvl : Int) (ts : List Tok) :
    skipLoop lvl (Tok.brOpen :: ts) = skipLoop (lvl + 1) ts := rfl

/-- One skip step: a closing brace lowers the level and may stop. -/
theorem skipLoop_close (lvl : Int) (ts : List Tok) :
    skipLoop lvl (Tok.brClose :: ts) = if lvl - 1 ≤ 0 then ts else skipLoop (lvl - 1) ts := rfl

/-- One skip step: strings are ignored. -/
theorem skipLoop_str (lvl : Int) (s : String) (ts : List Tok) :
    skipLoop lvl (Tok.str s :: ts) = skipLoop lvl ts := rfl

/-- One skip step: newlines are ignored. -/
theorem skipLoop_nl (lvl : Int) (ts : List Tok) :
    skipLoop lvl (Tok.nl :: ts) = skipLoop lvl ts := rfl

/-- Skipping a balanced run at depth at least one passes over it entirely. -/
theorem skipLoop_balanced_prefix : ∀ (inner : List Tok), Balanced inner →
    ∀ (lvl : Int) (rest : List Tok), 1 ≤ lvl →
    skipLoop lvl (inner ++ rest) = skipLoop lvl rest := by
  intro inner hb
  induction hb with
  | nil => intro lvl rest h; rfl
  | tok t ts ht1 ht2 hbts ih =>
    intro lvl rest h
    cases t with
    | str s => rw [List.cons_append, skipLoop_str]; exact ih lvl rest h
    | nl => rw [List.cons_append, skipLoop_nl]; exact ih lvl rest h
    | brOpen => exact absurd rfl ht1
    | brClose => exact absurd rfl ht2
  | nest inner2 rest2 hbi hbr ihi ihr =>
    intro lvl rest h
    rw [List.append_assoc, List.cons_append, skipLoop_open,
      ihi (lvl + 1) _ (by omega), List.cons_append, skipLoop_close,
      if_neg (by omega), show lvl + 1 - 1 = lvl by omega]
    exact ihr lvl rest h

/-- The brace-depth skip of a whole balanced block consumes exactly the block. -/
theorem skipLoop_balanced_block (inner rest : List Tok) (h : Balanced inner) :
    skipLoop 0 (Tok.brOpen :: inner ++ Tok.brClose :: rest) = rest := by
  rw [List.cons_append, skipLoop_open, show (0 : Int) + 1 = 1 by omega,
    skipLoop_balanced_prefix inner h 1 _ (by omega),
    skipLoop_close, if_pos (by omega)]

/-- Claim C3: an unknown key at ItemData top level, inside an Editor block or
inside a Subtype block is a fatal parse error; an unknown key inside an
Exporting block is never fatal: its brace block is skipped by depth counting
(consuming exactly a balanced block) and parsing continues. -/
theorem unknown_key_policy :
    (∀ (fuel : Nat) (doc : Doc) (key : String) (ts : List Tok),
      pyLower key ≠ "item" → pyLower key ≠ "renderables" →
      itemDataLoop (fuel + 1) doc (Tok.str key :: ts)
        = .error ("Unknown block \"" ++ key ++ "\"!")) ∧
    (∀ (fuel : Nat) (it : Item) (key : String) (ts : List Tok),
      pyLower key ≠ "subtype" → pyLower key ≠ "animations" →
      pyLower key ≠ "movementhandle" → pyLower key ≠ "invalidsurface" →
      pyLower key ≠ "subtypeproperty" → pyLower key ≠ "desiredfacing" →
      pyLower key ≠ "rendercolor" →
      "cananchoronbarriers" ≠ pyLower key → "cananchorongoo" ≠ pyLower key →
      "occupiesvoxel" ≠ pyLower key → "copyable" ≠ pyLower key →
      "deletable" ≠ pyLower key → "pseudohandle" ≠ pyLower key →
      editorLoop (fuel + 1) it (Tok.str key :: ts)
        = .error ("Unknown editor option " ++ key)) ∧
    (∀ (fuel : Nat) (st : SubType) (key : String) (ts : List Tok),
      pyLower key ≠ "name" → pyLower key ≠ "model" → pyLower key ≠ "palette" →
      pyLower key ≠ "sounds" → pyLower key ≠ "animations" →
      subtypeLoop (fuel + 1) st (Tok.str key :: ts)
        = .error ("Unknown subtype option \"" ++ key ++ "\"!")) ∧
    (∀ (fuel : Nat) (st : Item × List String) (key : String) (ts : List Tok),
      pyLower key ≠ "targetname" → pyLower key ≠ "offset" →
      pyLower key ≠ "instances" → pyLower key ≠ "connectionpoints" →
      pyLower key ≠ "embeddedvoxels" → pyLower key ≠ "embedface" →
      pyLower key ≠ "overlay" →
      exportLoop (fuel + 1) st (Tok.str key :: ts)
        = exportLoop fuel st (skipLoop 0 ts)) ∧
    (∀ (inner rest : List Tok), Balanced inner →
      skipLoop 0 (Tok.brOpen :: inner ++ Tok.brClose :: rest) = rest) := by
  refine ⟨?_, ?_, ?_, ?_, ?_⟩
  · intro fuel doc key ts h1 h2
    rw [itemDataLoop]
    simp [blockNext, skipNls, h1, h2]
  · intro fuel it key ts h1 h2 h3 h4 h5 h6 h7 h8 h9 h10 h11 h12 h13
    rw [editorLoop]
    simp [blockNext, skipNls, dictGet, BOOL_ATTRS,
      h1, h2, h3, h4, h5, h6, h7, h8, h9, h10, h11, h12, h13]
  · intro fuel st key ts h1 h2 h3 h4 h5
    rw [subtypeLoop]
    simp [blockNext, skipNls, h1, h2, h3, h4, h5]
  · intro fuel st key ts h1 h2 h3 h4 h5 h6 h7
    rw [exportLoop]
    simp [blockNext, skipNls, h1, h2, h3, h4, h5, h6, h7]
  · exact fun inner rest h => skipLoop_balanced_block inner rest h

/-- Witness for unknown_key_policy at concrete keys and a concrete balanced
block. -/
theorem unknown_key_policy_witness :
    itemDataLoop 1 ⟨[], [], []⟩ [Tok.str "Frobnicate"]
      = .error ("Unknown block \"" ++ "Frobnicate" ++ "\"!") ∧
    editorLoop 1 (Item.init "" .UNCLASSED) [Tok.str "Frobnicate"]
      = .error ("Unknown editor option " ++ "Frobnicate") ∧
    subtypeLoop 1 SubType.init [Tok.str "Frobnicate"]
      = .error ("Unknown subtype option \"" ++ "Frobnicate" ++ "\"!") ∧
    exportLoop 1 (Item.init "" .UNCLASSED, []) [Tok.str "Frobnicate", Tok.brOpen,
        Tok.str "x", Tok.brClose, Tok.brClose]
      = exportLoop 0 (Item.init "" .UNCLASSED, [])
          (skipLoop 0 [Tok.brOpen, Tok.str "x", Tok.brClose, Tok.brClose]) ∧
    skipLoop 0 (Tok.brOpen :: [Tok.str "x"] ++ Tok.brClose :: [Tok.brClose])
      = [Tok.brClose] :=
  ⟨unknown_key_policy.1 0 ⟨[], [], []⟩ "Frobnicate" [] (by decide) (by decide),
   unknown_key_policy.2.1 0 (Item.init "" .UNCLASSED) "Frobnicate" []
     (by decide) (by decide) (by decide) (by decide) (by decide) (by decide) (by decide)
     (by decide) (by decide) (by decide) (by decide) (by decide) (by decide),
   unknown_key_policy.2.2.1 0 SubType.init "Frobnicate" []
     (by decide) (by decide) (by decide) (by decide) (by decide),
   unknown_key_policy.2.2.2.1 0 (Item.init "" .UNCLASSED, []) "Frobnicate"
     [Tok.brOpen, Tok.str "x", Tok.brClose, Tok.brClose]
     (by decide) (by decide) (by decide) (by decide) (by decide) (by decide) (by decide),
   unknown_key_policy.2.2.2.2 [Tok.str "x"] [Tok.brClose]
     (Balanced.tok _ _ (by decide) (by decide) Balanced.nil)⟩

end EditorItems

namespace EditorItems

/-- One Item key inside the ItemData block: parse the item, record it under
its id (logging the redeclared warning when the id was present) and go on. -/
theorem itemDataLoop_item_step (fuel : Nat) (doc : Doc) (ts rest : List Tok)
    (it : Item) (warns : List String)
    (h : parseOne ts = .ok ((it, warns), rest)) :
    itemDataLoop (fuel + 1) doc (Tok.str "Item" :: ts)
      = itemDataLoop fuel
          ⟨dictSet doc.items it.id it, doc.icons,
           doc.warnings ++ warns ++
             (if dictContains doc.items it.id then [redeclWarning it.id] else [])⟩ rest := by
  have e2 : pyLower "Item" = "item" := by decide
  rw [itemDataLoop]
  simp [blockNext, skipNls, e2, h]

/-- The ItemData block ends at the closing brace. -/
theorem itemDataLoop_done (fuel : Nat) (doc : Doc) (rest : List Tok) :
    itemDataLoop (fuel + 1) doc (Tok.brClose :: rest) = .ok (doc, rest) := by
  rw [itemDataLoop]
  simp [blockNext, skipNls]

/-- The ItemData block ends at the closing brace (any positive fuel). -/
theorem itemDataLoop_done_pos (fuel : Nat) (doc : Doc) (rest : List Tok) (h : 0 < fuel) :
    itemDataLoop fuel doc (Tok.brClose :: rest) = .ok (doc, rest) := by
  cases fuel with
  | zero => omega
  | succ n => exact itemDataLoop_done n doc rest

/-- Claim C8: a document declaring two items with the same Type: the second
parse overwrites the first under that id, the redeclared warning is logged,
and the parse succeeds (no exception). -/
theorem duplicate_item_overwrites
    (body1 body2 : List Tok) (i1 i2 : Item) (w1 w2 : List String)
    (h1 : parseOne (body1 ++ Tok.str "Item" :: body2 ++ [Tok.brClose])
        = .ok ((i1, w1), Tok.str "Item" :: body2 ++ [Tok.brClose]))
    (h2 : parseOne (body2 ++ [Tok.brClose]) = .ok ((i2, w2), [Tok.brClose]))
    (hid : i1.id = i2.id) :
    parseItems (Tok.str "ItemData" :: Tok.brOpen :: Tok.str "Item" ::
        (body1 ++ Tok.str "Item" :: body2 ++ [Tok.brClose]))
      = .ok ⟨[(i2.id, i2)], [], w1 ++ w2 ++ [redeclWarning i2.id]⟩ := by
  have e : pyLower "ItemData" = "itemdata" := by decide
  unfold parseItems
  simp only [expectString, skipNls, e]
  rw [if_neg (by simp)]
  simp only [blockStart, skipNls]
  rw [itemDataLoop_item_step _ _ _ _ _ _ h1]
  simp only [List.cons_append]
  rw [List.length_cons, itemDataLoop_item_step _ _ _ _ _ _ h2]
  rw [itemDataLoop_done_pos _ _ _ (by simp)]
  simp [dictSet, dictContains, dictGet, hid]

/-- Witness for duplicate_item_overwrites: two minimal items both naming
Type "A"; the parsed document holds the second and one warning. -/
theorem duplicate_item_overwrites_witness :
    parseItems (Tok.str "ItemData" :: Tok.brOpen :: Tok.str "Item" ::
        ([Tok.brOpen, Tok.str "Type", Tok.str "a", Tok.brClose]
          ++ Tok.str "Item" :: [Tok.brOpen, Tok.str "Type", Tok.str "A",
               Tok.str "Description", Tok.str "x", Tok.brClose] ++ [Tok.brClose]))
      = .ok ⟨[((Item.init "A" .UNCLASSED).id, Item.init "A" .UNCLASSED)], [],
          [] ++ [] ++ [redeclWarning (Item.init "A" .UNCLASSED).id]⟩ :=
  duplicate_item_overwrites
    [Tok.brOpen, Tok.str "Type", Tok.str "a", Tok.brClose]
    [Tok.brOpen, Tok.str "Type", Tok.str "A", Tok.str "Description", Tok.str "x",
      Tok.brClose]
    (Item.init "A" .UNCLASSED) (Item.init "A" .UNCLASSED) [] []
    (by decide) (by decide) (by decide)

end EditorItems

namespace EditorItems

/-- Every target the _BOOL_ATTRS table can produce. -/
theorem boolAttr_values (k a : String) (h : dictGet BOOL_ATTRS k = some a) :
    a = "anchor_barriers" ∨ a = "occupies_voxel" ∨ a = "copiable" ∨
    a = "deletable" ∨ a = "pseudo_handle" := by
  simp only [BOOL_ATTRS, dictGet] at h
  split_ifs at h <;> simp_all

/-- No _BOOL_ATTRS target writes the anchor_goo field. -/
theorem setBoolAttr_goo (k a : String) (h : dictGet BOOL_ATTRS k = some a)
    (it : Item) (b : Bool) : (setBoolAttr it a b).anchor_goo = it.anchor_goo := by
  rcases boolAttr_values k a h with h2 | h2 | h2 | h2 | h2 <;>
    subst h2 <;> simp [setBoolAttr]

/-- The Editor block never writes anchor_goo. -/
theorem editorLoop_goo : ∀ (fuel : Nat) (it : Item) (ts : List Tok)
    (r : Item × List Tok),
    editorLoop fuel it ts = .ok r → r.1.anchor_goo = it.anchor_goo := by
  intro fuel
  induction fuel with
  | zero => intro it ts r h; exact Except.noConfusion h
  | succ n ih =>
    intro it ts r h
    rw [editorLoop] at h
    simp only [] at h
    repeat' split at h
    all_goals try exact Except.noConfusion h
    all_goals try (cases h; rfl)
    all_goals try exact ih _ _ _ h
    all_goals (rw [ih _ _ _ h]; try exact setBoolAttr_goo _ _ (by assumption) it _)

/-- The Exporting block never writes anchor_goo. -/
theorem exportLoop_goo : ∀ (fuel : Nat) (st : Item × List String) (ts : List Tok)
    (r : (Item × List String) × List Tok),
    exportLoop fuel st ts = .ok r → r.1.1.anchor_goo = st.1.anchor_goo := by
  intro fuel
  induction fuel with
  | zero => intro st ts r h; exact Except.noConfusion h
  | succ n ih =>
    intro st ts r h
    rw [exportLoop] at h
    simp only [] at h
    repeat' split at h
    all_goals try exact Except.noConfusion h
    all_goals try (cases h; rfl)
    all_goals try exact ih _ _ _ h
    all_goals (rw [ih _ _ _ h])

/-- Item._parse_editor_block never writes anchor_goo. -/
theorem parseEditorBlock_goo (it : Item) (ts : List Tok) (r : Item × List Tok)
    (h : parseEditorBlock it ts = .ok r) : r.1.anchor_goo = it.anchor_goo := by
  unfold parseEditorBlock at h
  split at h
  · exact Except.noConfusion h
  · exact editorLoop_goo _ _ _ _ h

/-- Item._parse_export_block never writes anchor_goo. -/
theorem parseExportBlock_goo (st : Item × List String) (ts : List Tok)
    (r : (Item × List String) × List Tok)
    (h : parseExportBlock st ts = .ok r) : r.1.1.anchor_goo = st.1.anchor_goo := by
  unfold parseExportBlock at h
  split at h
  · exact Except.noConfusion h
  · exact exportLoop_goo _ _ _ _ h

/-- The parse_one token loop never writes anchor_goo. -/
theorem itemLoop_goo : ∀ (fuel : Nat) (st : Item × List String) (ts : List Tok)
    (r : (Item × List String) × List Tok),
    itemLoop fuel st ts = .ok r → r.1.1.anchor_goo = st.1.anchor_goo := by
  intro fuel
  induction fuel with
  | zero => intro st ts r h; exact Except.noConfusion h
  | succ n ih =>
    intro st ts r h
    rw [itemLoop.eq_def] at h
    simp only [] at h
    repeat' split at h
    all_goals try exact Except.noConfusion h
    all_goals try (cases h; rfl)
    all_goals try exact ih _ _ _ h
    all_goals (rw [ih _ _ _ h]
               try first
                 | exact parseEditorBlock_goo _ _ _ (by assumption)
                 | exact parseExportBlock_goo _ _ _ (by assumption))

/-- Item.parse_one yields an item whose anchor_goo is the constructor
default False: no parse path ever writes the field. -/
theorem parseOne_goo (ts : List Tok) (r : (Item × List String) × List Tok)
    (h : parseOne ts = .ok r) : r.1.1.anchor_goo = false := by
  unfold parseOne at h
  split at h
  · exact Except.noConfusion h
  · exact itemLoop_goo _ _ _ _ h

/-- Claim C4: both cananchoronbarriers and cananchorongoo map to
anchor_barriers in _BOOL_ATTRS; parsing a CanAnchorOnGoo key therefore
assigns anchor_barriers; and no parse of an item ever modifies anchor_goo,
which keeps its constructor default False. -/
theorem anchor_goo_key_targets_barriers :
    (dictGet BOOL_ATTRS "cananchoronbarriers" = some "anchor_barriers" ∧
     dictGet BOOL_ATTRS "cananchorongoo" = some "anchor_barriers") ∧
    (∀ (fuel : Nat) (it : Item) (v : String) (ts : List Tok),
      editorLoop (fuel + 1) it (Tok.str "CanAnchorOnGoo" :: Tok.str v :: ts)
        = editorLoop fuel { it with anchor_barriers := convBool v false } ts) ∧
    (∀ (ts : List Tok) (r : (Item × List String) × List Tok),
      parseOne ts = .ok r → r.1.1.anchor_goo = false) := by
  refine ⟨⟨by decide, by decide⟩, ?_, parseOne_goo⟩
  intro fuel it v ts
  have e : pyLower "CanAnchorOnGoo" = "cananchorongoo" := by decide
  rw [editorLoop]
  simp [blockNext, skipNls, expectString, e, dictGet, BOOL_ATTRS, setBoolAttr]

/-- Witness for anchor_goo_key_targets_barriers: a concrete editor block and
a concrete parse. -/
theorem anchor_goo_key_targets_barriers_witness :
    editorLoop 1 (Item.init "" .UNCLASSED)
        [Tok.str "CanAnchorOnGoo", Tok.str "1"]
      = editorLoop 0 { Item.init "" .UNCLASSED with anchor_barriers := true } [] ∧
    (Item.init "A" .UNCLASSED, ([] : List String), ([] : List Tok)).1.anchor_goo = false := by
  constructor
  · have h := anchor_goo_key_targets_barriers.2.1 0 (Item.init "" .UNCLASSED) "1" []
    simpa using h
  · have h := anchor_goo_key_targets_barriers.2.2
      [Tok.brOpen, Tok.str "Type", Tok.str "A", Tok.brClose]
      ((Item.init "A" .UNCLASSED, []), []) (by decide)
    simpa using h

end EditorItems

namespace EditorItems

/-- A positive probe never moves backwards. -/
theorem probePos_ge (mem : Int → Bool) : ∀ (n : Nat) (cur : Int),
    cur ≤ probePos mem n cur := by
  intro n
  induction n with
  | zero => intro cur; exact le_refl cur
  | succ k ih =>
    intro cur
    rw [probePos]
    split
    · exact le_trans (by omega) (ih (cur + 1))
    · exact le_refl cur

/-- A positive probe advances at most its fuel. -/
theorem probePos_le (mem : Int → Bool) : ∀ (n : Nat) (cur : Int),
    probePos mem n cur ≤ cur + n := by
  intro n
  induction n with
  | zero => intro cur; simp [probePos]
  | succ k ih =>
    intro cur
    rw [probePos]
    split
    · have := ih (cur + 1)
      omega
    · omega

/-- Every position a positive probe passed satisfied the membership test. -/
theorem probePos_mem (mem : Int → Bool) : ∀ (n : Nat) (cur t : Int),
    cur < t → t ≤ probePos mem n cur → mem t = true := by
  intro n
  induction n with
  | zero =>
    intro cur t h1 h2
    rw [probePos] at h2
    omega
  | succ k ih =>
    intro cur t h1 h2
    rw [probePos] at h2
    split at h2
    · rename_i hmem
      by_cases ht : t = cur + 1
      · exact ht ▸ hmem
      · exact ih (cur + 1) t (by omega) h2
    · omega

/-- A negative probe never moves forwards. -/
theorem probeNeg_le (mem : Int → Bool) : ∀ (n : Nat) (cur : Int),
    probeNeg mem n cur ≤ cur := by
  intro n
  induction n with
  | zero => intro cur; exact le_refl cur
  | succ k ih =>
    intro cur
    rw [probeNeg]
    split
    · exact le_trans (ih (cur - 1)) (by omega)
    · exact le_refl cur

/-- A negative probe retreats at most its fuel. -/
theorem probeNeg_ge (mem : Int → Bool) : ∀ (n : Nat) (cur : Int),
    cur - n ≤ probeNeg mem n cur := by
  intro n
  induction n with
  | zero => intro cur; simp [probeNeg]
  | succ k ih =>
    intro cur
    rw [probeNeg]
    split
    · have := ih (cur - 1)
      omega
    · omega

/-- Every position a negative probe passed satisfied the membership test. -/
theorem probeNeg_mem (mem : Int → Bool) : ∀ (n : Nat) (cur t : Int),
    probeNeg mem n cur ≤ t → t < cur → mem t = true := by
  intro n
  induction n with
  | zero =>
    intro cur t h1 h2
    rw [probeNeg] at h1
    omega
  | succ k ih =>
    intro cur t h1 h2
    rw [probeNeg] at h1
    split at h1
    · rename_i hmem
      by_cases ht : t = cur - 1
      · exact ht ▸ hmem
      · exact ih (cur - 1) t h1 (by omega)
    · omega

/-- Every point of the grown X row lies in the set (or is the seed). -/
theorem grow_row (todo : Finset Coord) (seed : Coord) :
    ∀ x : Int, growX1 todo seed ≤ x → x ≤ growX2 todo seed →
    (⟨x, seed.y, seed.z⟩ : Coord) ∈ insert seed todo := by
  intro x h1 h2
  rcases lt_trichotomy x seed.x with h | h | h
  · have hm := probeNeg_mem
      (fun x => decide ((⟨x, seed.y, seed.z⟩ : Coord) ∈ todo)) (EXTENT - 1) seed.x x h1 h
    exact Finset.mem_insert_of_mem (of_decide_eq_true hm)
  · subst h
    exact Finset.mem_insert_self _ _
  · have hm := probePos_mem
      (fun x => decide ((⟨x, seed.y, seed.z⟩ : Coord) ∈ todo)) (EXTENT - 1) seed.x x h h2
    exact Finset.mem_insert_of_mem (of_decide_eq_true hm)

/-- Every point of the grown XY slab lies in the set (or is the seed). -/
theorem grow_slab (todo : Finset Coord) (seed : Coord) :
    ∀ y x : Int, growY1 todo seed ≤ y → y ≤ growY2 todo seed →
    growX1 todo seed ≤ x → x ≤ growX2 todo seed →
    (⟨x, y, seed.z⟩ : Coord) ∈ insert seed todo := by
  intro y x hy1 hy2 hx1 hx2
  rcases lt_trichotomy y seed.y with h | h | h
  · have hm := probeNeg_mem
      (fun y => decide (∀ x ∈ Finset.Icc (growX1 todo seed) (growX2 todo seed),
        (⟨x, y, seed.z⟩ : Coord) ∈ todo)) (EXTENT - 1) seed.y y hy1 h
    exact Finset.mem_insert_of_mem
      (of_decide_eq_true hm x (Finset.mem_Icc.mpr ⟨hx1, hx2⟩))
  · subst h
    exact grow_row todo seed x hx1 hx2
  · have hm := probePos_mem
      (fun y => decide (∀ x ∈ Finset.Icc (growX1 todo seed) (growX2 todo seed),
        (⟨x, y, seed.z⟩ : Coord) ∈ todo)) (EXTENT - 1) seed.y y h hy2
    exact Finset.mem_insert_of_mem
      (of_decide_eq_true hm x (Finset.mem_Icc.mpr ⟨hx1, hx2⟩))

/-- Every point of the grown box lies in the set (or is the seed). -/
theorem grow_box_aux (todo : Finset Coord) (seed : Coord) :
    ∀ z y x : Int, growZ1 todo seed ≤ z → z ≤ growZ2 todo seed →
    growY1 todo seed ≤ y → y ≤ growY2 todo seed →
    growX1 todo seed ≤ x → x ≤ growX2 todo seed →
    (⟨x, y, z⟩ : Coord) ∈ insert seed todo := by
  intro z y x hz1 hz2 hy1 hy2 hx1 hx2
  rcases lt_trichotomy z seed.z with h | h | h
  · have hm := probeNeg_mem
      (fun z => decide (∀ x ∈ Finset.Icc (growX1 todo seed) (growX2 todo seed),
        ∀ y ∈ Finset.Icc (growY1 todo seed) (growY2 todo seed),
        (⟨x, y, z⟩ : Coord) ∈ todo)) (EXTENT - 1) seed.z z hz1 h
    exact Finset.mem_insert_of_mem
      (of_decide_eq_true hm x (Finset.mem_Icc.mpr ⟨hx1, hx2⟩)
        y (Finset.mem_Icc.mpr ⟨hy1, hy2⟩))
  · subst h
    exact grow_slab todo seed y x hy1 hy2 hx1 hx2
  · have hm := probePos_mem
      (fun z => decide (∀ x ∈ Finset.Icc (growX1 todo seed) (growX2 todo seed),
        ∀ y ∈ Finset.Icc (growY1 todo seed) (growY2 todo seed),
        (⟨x, y, z⟩ : Coord) ∈ todo)) (EXTENT - 1) seed.z z h hz2
    exact Finset.mem_insert_of_mem
      (of_decide_eq_true hm x (Finset.mem_Icc.mpr ⟨hx1, hx2⟩)
        y (Finset.mem_Icc.mpr ⟨hy1, hy2⟩))

/-- Soundness of one iteration: the grown box only covers the seed and
points still in the to-do set. -/
theorem growBox_mem (todo : Finset Coord) (seed : Coord) (p : Coord)
    (hp : inBox (growBox todo seed) p) : p ∈ insert seed todo := by
  simp only [inBox, growBox] at hp
  obtain ⟨h1, h2, h3, h4, h5, h6⟩ := hp
  exact grow_box_aux todo seed p.z p.y p.x h5 h6 h3 h4 h1 h2

/-- The seed is inside its own grown box. -/
theorem growBox_seed (todo : Finset Coord) (seed : Coord) :
    inBox (growBox todo seed) seed := by
  refine ⟨?_, ?_, ?_, ?_, ?_, ?_⟩ <;>
    first
      | exact probeNeg_le _ _ _
      | exact probePos_ge _ _ _

/-- The main loop invariant: with enough fuel, the emitted boxes cover the
to-do set exactly and never spill outside it. -/
theorem bbLoop_spec (choose : Chooser) : ∀ (fuel : Nat) (todo : Finset Coord),
    todo.card < fuel →
    (∀ b ∈ bbLoop choose fuel todo, ∀ p : Coord, inBox b p → p ∈ todo) ∧
    (∀ p : Coord, p ∈ todo ↔ ∃ b ∈ bbLoop choose fuel todo, inBox b p) := by
  intro fuel
  induction fuel with
  | zero => intro todo h; exact absurd h (by omega)
  | succ n ih =>
    intro todo hcard
    by_cases hne : todo.Nonempty
    · have hseed : (choose todo hne).1 ∈ todo := (choose todo hne).2
      rw [bbLoop, dif_pos hne]
      simp only []
      set seed := (choose todo hne).1 with hseeddef
      set rest := todo.erase seed with hrestdef
      set b := growBox rest seed with hbdef
      set todo2 := rest.filter (fun p => ¬ inBox b p) with htodo2
      have hins : insert seed rest = todo := Finset.insert_erase hseed
      have hcard2 : todo2.card < n := by
        have hc1 : todo2.card ≤ rest.card :=
          Finset.card_le_card (Finset.filter_subset _ _)
        have hc2 : rest.card = todo.card - 1 := Finset.card_erase_of_mem hseed
        have hc3 : 1 ≤ todo.card := Finset.card_pos.mpr hne
        omega
      obtain ⟨ihs, ihc⟩ := ih todo2 hcard2
      have hsub2 : todo2 ⊆ todo := by
        intro q hq
        exact (Finset.erase_subset _ _) ((Finset.filter_subset _ _) hq)
      constructor
      · intro b2 hb2 p hp
        rcases List.mem_cons.mp hb2 with rfl | htail
        · rw [← hins]
          exact growBox_mem rest seed p hp
        · exact hsub2 (ihs b2 htail p hp)
      · intro p
        constructor
        · intro hptodo
          by_cases hbox : inBox b p
          · exact ⟨b, List.mem_cons_self _ _, hbox⟩
          · have hpne : p ≠ seed := by
              intro hpe
              exact hbox (hpe ▸ growBox_seed rest seed)
            have hprest : p ∈ rest := Finset.mem_erase.mpr ⟨hpne, hptodo⟩
            have hpt2 : p ∈ todo2 := Finset.mem_filter.mpr ⟨hprest, hbox⟩
            obtain ⟨b2, hb2, hpb2⟩ := (ihc p).mp hpt2
            exact ⟨b2, List.mem_cons_of_mem _ hb2, hpb2⟩
        · rintro ⟨b2, hb2, hpb2⟩
          rcases List.mem_cons.mp hb2 with rfl | htail
          · rw [← hins]
            exact growBox_mem rest seed p hpb2
          · exact hsub2 ((ihc p).mpr ⟨b2, htail, hpb2⟩)
    · rw [bbLoop, dif_neg hne]
      have hempty : todo = ∅ := Finset.not_nonempty_iff_eq_empty.mp hne
      subst hempty
      constructor
      · intro b2 hb2
        exact absurd hb2 (List.not_mem_nil _)
      · intro p
        simp

/-- Claim C2: for every finite coordinate set S (and every choice function
standing for set.pop), the union of lattice points enclosed by the boxes of
bounding_boxes(S) is exactly S, and no box encloses a point outside S. -/
theorem bounding_boxes_exact_cover (choose : Chooser) (S : Finset Coord) :
    (∀ b ∈ boundingBoxes choose S, ∀ p : Coord, inBox b p → p ∈ S) ∧
    (∀ p : Coord, p ∈ S ↔ ∃ b ∈ boundingBoxes choose S, inBox b p) :=
  bbLoop_spec choose (S.card + 1) S (Nat.lt_succ_self _)

/-- Witness for bounding_boxes_exact_cover on a concrete two-point set. -/
theorem bounding_boxes_exact_cover_witness :
    (⟨0, 0, 0⟩ : Coord) ∈ ({⟨0, 0, 0⟩, ⟨1, 0, 0⟩} : Finset Coord) ∧
    (⟨5, 5, 5⟩ : Coord) ∉ ({⟨0, 0, 0⟩, ⟨1, 0, 0⟩} : Finset Coord) ∧
    ((⟨5, 5, 5⟩ : Coord) ∈ ({⟨0, 0, 0⟩, ⟨1, 0, 0⟩} : Finset Coord) ↔
      ∃ b ∈ boundingBoxes chooseMin {⟨0, 0, 0⟩, ⟨1, 0, 0⟩}, inBox b ⟨5, 5, 5⟩) :=
  ⟨(bounding_boxes_exact_cover chooseMin {⟨0, 0, 0⟩, ⟨1, 0, 0⟩}).1
      (⟨0, 0, 0⟩, ⟨1, 0, 0⟩) (by decide) ⟨0, 0, 0⟩ (by decide),
   by decide,
   (bounding_boxes_exact_cover chooseMin {⟨0, 0, 0⟩, ⟨1, 0, 0⟩}).2 ⟨5, 5, 5⟩⟩

end EditorItems

namespace EditorItems

/-- Every emitted box is the grown box of some seed popped from the set. -/
theorem bbLoop_boxes (choose : Chooser) : ∀ (fuel : Nat) (todo : Finset Coord)
    (b : Coord × Coord), b ∈ bbLoop choose fuel todo →
    ∃ (t2 : Finset Coord) (seed : Coord), seed ∈ todo ∧ b = growBox t2 seed := by
  intro fuel
  induction fuel with
  | zero => intro todo b h; exact absurd h (List.not_mem_nil _)
  | succ n ih =>
    intro todo b h
    by_cases hne : todo.Nonempty
    · rw [bbLoop, dif_pos hne] at h
      simp only [] at h
      rcases List.mem_cons.mp h with rfl | htail
      · exact ⟨_, _, (choose todo hne).2, rfl⟩
      · obtain ⟨t2, seed, hseed, hb⟩ := ih _ _ htail
        exact ⟨t2, seed,
          (Finset.erase_subset _ _) ((Finset.filter_subset _ _) hseed), hb⟩
    · rw [bbLoop, dif_neg hne] at h
      exact absurd h (List.not_mem_nil _)

/-- The per-direction, per-axis growth of one grown box away from its seed is
bounded by the extent cap: each probe scans at most EXTENT - 1 = 49 new
positions, so no corner is more than 50 units from the seed. -/
theorem growBox_cap (todo : Finset Coord) (seed : Coord) :
    seed.x - (growBox todo seed).1.x ≤ 50 ∧ (growBox todo seed).2.x - seed.x ≤ 50 ∧
    seed.y - (growBox todo seed).1.y ≤ 50 ∧ (growBox todo seed).2.y - seed.y ≤ 50 ∧
    seed.z - (growBox todo seed).1.z ≤ 50 ∧ (growBox todo seed).2.z - seed.z ≤ 50 := by
  have he : ((EXTENT - 1 : Nat) : Int) = 49 := by decide
  refine ⟨?_, ?_, ?_, ?_, ?_, ?_⟩
  · have h := probeNeg_ge
      (fun x => decide ((⟨x, seed.y, seed.z⟩ : Coord) ∈ todo)) (EXTENT - 1) seed.x
    simp only [growBox, growX1]
    omega
  · have h := probePos_le
      (fun x => decide ((⟨x, seed.y, seed.z⟩ : Coord) ∈ todo)) (EXTENT - 1) seed.x
    simp only [growBox, growX2]
    omega
  · have h := probeNeg_ge
      (fun y => decide (∀ x ∈ Finset.Icc (growX1 todo seed) (growX2 todo seed),
        (⟨x, y, seed.z⟩ : Coord) ∈ todo)) (EXTENT - 1) seed.y
    simp only [growBox, growY1]
    omega
  · have h := probePos_le
      (fun y => decide (∀ x ∈ Finset.Icc (growX1 todo seed) (growX2 todo seed),
        (⟨x, y, seed.z⟩ : Coord) ∈ todo)) (EXTENT - 1) seed.y
    simp only [growBox, growY2]
    omega
  · have h := probeNeg_ge
      (fun z => decide (∀ x ∈ Finset.Icc (growX1 todo seed) (growX2 todo seed),
        ∀ y ∈ Finset.Icc (growY1 todo seed) (growY2 todo seed),
        (⟨x, y, z⟩ : Coord) ∈ todo)) (EXTENT - 1) seed.z
    simp only [growBox, growZ1]
    omega
  · have h := probePos_le
      (fun z => decide (∀ x ∈ Finset.Icc (growX1 todo seed) (growX2 todo seed),
        ∀ y ∈ Finset.Icc (growY1 todo seed) (growY2 todo seed),
        (⟨x, y, z⟩ : Coord) ∈ todo)) (EXTENT - 1) seed.z
    simp only [growBox, growZ2]
    omega

/-- Claim C9: every box bounding_boxes yields is the greedy growth of a seed
point of the input set, and that growth moves each corner at most 50 units
from the seed per probe direction along each axis (in fact at most
EXTENT - 1 = 49 scanned positions per direction). -/
theorem bounding_boxes_growth_cap (choose : Chooser) (S : Finset Coord) :
    ∀ b ∈ boundingBoxes choose S, ∃ (todo : Finset Coord) (seed : Coord),
      seed ∈ S ∧ b = growBox todo seed ∧
      seed.x - b.1.x ≤ 50 ∧ b.2.x - seed.x ≤ 50 ∧
      seed.y - b.1.y ≤ 50 ∧ b.2.y - seed.y ≤ 50 ∧
      seed.z - b.1.z ≤ 50 ∧ b.2.z - seed.z ≤ 50 := by
  intro b hb
  obtain ⟨t2, seed, hseed, rfl⟩ := bbLoop_boxes choose (S.card + 1) S b hb
  exact ⟨t2, seed, hseed, rfl, growBox_cap t2 seed⟩

/-- Witness for bounding_boxes_growth_cap on a concrete singleton set. -/
theorem bounding_boxes_growth_cap_witness :
    ∃ (todo : Finset Coord) (seed : Coord),
      seed ∈ ({⟨0, 0, 0⟩} : Finset Coord) ∧
      ((⟨0, 0, 0⟩, ⟨0, 0, 0⟩) : Coord × Coord) = growBox todo seed ∧
      seed.x - (⟨0, 0, 0⟩ : Coord).x ≤ 50 ∧ (⟨0, 0, 0⟩ : Coord).x - seed.x ≤ 50 ∧
      seed.y - (⟨0, 0, 0⟩ : Coord).y ≤ 50 ∧ (⟨0, 0, 0⟩ : Coord).y - seed.y ≤ 50 ∧
      seed.z - (⟨0, 0, 0⟩ : Coord).z ≤ 50 ∧ (⟨0, 0, 0⟩ : Coord).z - seed.z ≤ 50 :=
  bounding_boxes_growth_cap chooseMin {⟨0, 0, 0⟩}
    (⟨0, 0, 0⟩, ⟨0, 0, 0⟩) (by decide)

end EditorItems
